import Mathlib

/-!
# Verification of the spring-error-analyzer streaming log pipeline

This file gives a shallow embedding, in Lean 4, of the core of the
`spring-error-analyzer` repository:

* `src/analyzer/LogParser.ts` — the incremental stream reconstructor
  (`LogParser.parseLine`, `LogParser.flush`, `LogParser.flushCurrentError`),
  including an executable embedding of the structured-header recogniser
  `LOG_LINE_REGEX` and the continuation-line regexes;
* `src/analyzer/LocalAnalyzer.ts` — the `ERROR_PATTERNS` table and the
  first-match classifier `LocalAnalyzer.analyze` / `canHandle`, backed by a
  small executable regular-expression engine;
* `src/analyzer/ClaudeAnalyzer.ts` — the rate-limiting guard of
  `ClaudeAnalyzer.analyze` (`canMakeRequest` / `recordRequest`), modelled up
  to the point where the network path would be entered.

JavaScript strings are modelled as Lean `String`; JS numbers used as
timestamps are modelled as `Int` (milliseconds); the event-emitter output of
the parser is modelled as an explicit list of emitted events, and the mutable
fields of each class become an explicit state record threaded through the
operations.
-/

/-! ## String helpers (JS `trimEnd`, `trim`, whitespace, character classes) -/

/-- ASCII whitespace as matched by the JS `\s` class and `trim`/`trimEnd`
(restricted to the ASCII range, which is all the sources use). -/
def isWsChar (c : Char) : Bool :=
  c = ' ' || c = '\t' || c = '\n' || c = '\r' || c = '\x0b' || c = '\x0c'

/-- JS `String.prototype.trimEnd`: remove trailing whitespace. -/
def trimEndStr (s : String) : String :=
  String.mk ((s.data.reverse.dropWhile isWsChar).reverse)

/-- JS `String.prototype.trim`: remove leading and trailing whitespace. -/
def trimStr (s : String) : String :=
  String.mk (((s.data.dropWhile isWsChar).reverse.dropWhile isWsChar).reverse)

/-- JS `Array.prototype.join`. -/
def joinSep (sep : String) : List String → String
  | [] => ""
  | [x] => x
  | x :: y :: xs => x ++ sep ++ joinSep sep (y :: xs)

/-- The JS character class `[\w.$]` (ASCII word characters plus `.` and `$`),
used by `LOG_LINE_REGEX` for the logger name and by `EXCEPTION_LINE_REGEX`. -/
def isWordDollarDot (c : Char) : Bool :=
  c.isAlphanum || c = '_' || c = '.' || c = '$'

/-! ## Parsing primitives for the embedded regexes -/

/-- Consume exactly `n` decimal digits. -/
def takeDigits : Nat → List Char → Option (List Char)
  | 0, cs => some cs
  | _ + 1, [] => none
  | n + 1, c :: cs => if c.isDigit then takeDigits n cs else none

/-- Consume one expected character. -/
def expectChar (c : Char) : List Char → Option (List Char)
  | [] => none
  | x :: xs => if x = c then some xs else none

/-- Consume an expected literal string. -/
def expectLit (l : List Char) (cs : List Char) : Option (List Char) :=
  if l.isPrefixOf cs then some (cs.drop l.length) else none

/-- Greedily consume characters satisfying `p` (the regex `p*`),
returning the consumed characters and the rest. -/
def takeWhileP (p : Char → Bool) (cs : List Char) : List Char × List Char :=
  (cs.takeWhile p, cs.dropWhile p)

/-- Greedily consume at least one character satisfying `p` (the regex `p+`). -/
def takeWhile1P (p : Char → Bool) (cs : List Char) : Option (List Char × List Char) :=
  match cs with
  | [] => none
  | c :: _ => if p c then some (takeWhileP p cs) else none

/-! ## The structured-header recogniser `LOG_LINE_REGEX`

```
/^(\d{4}-\d{2}-\d{2}[T ]\d{2}:\d{2}:\d{2}\.\d{3}[^\s]*)\s+(ERROR|WARN|INFO|DEBUG|TRACE)\s+(\d+)\s+---\s+(?:\[[^\]]*\]\s+)?\[([^\]]+)\]\s+([\w.$]+)\s*:\s*(.*)$/
```

All greedy character-class quantifiers in this pattern are followed by a
required character disjoint from the class, so greedy matching without
backtracking is equivalent to the JS backtracking semantics everywhere except
the optional bracket group `(?:\[[^\]]*\]\s+)?`, which is embedded as an
explicit two-way choice (`<|>`), trying the group first exactly as the JS
engine does.  `.` does not match line terminators and `$` (no `m` flag)
matches only at the very end of the string, so the final `(.*)$` succeeds
exactly when no line-terminator characters remain. -/

/-- The six capture groups of `LOG_LINE_REGEX`. -/
structure HeaderMatch where
  timestamp : String
  level : String
  pid : String
  thread : String
  logger : String
  message : String
deriving Repr, DecidableEq

/-- JS `.` (no `s` flag): any character except a line terminator. -/
def isDotChar (c : Char) : Bool :=
  c ≠ '\n' && c ≠ '\r' && c ≠ '\u2028' && c ≠ '\u2029'

/-- The timestamp core `\d{4}-\d{2}-\d{2}[T ]\d{2}:\d{2}:\d{2}\.\d{3}`. -/
def parseTsCore (cs : List Char) : Option (List Char) := do
  let r ← takeDigits 4 cs
  let r ← expectChar '-' r
  let r ← takeDigits 2 r
  let r ← expectChar '-' r
  let r ← takeDigits 2 r
  let r ← match r with
          | [] => none
          | c :: r' => if c = 'T' || c = ' ' then some r' else none
  let r ← takeDigits 2 r
  let r ← expectChar ':' r
  let r ← takeDigits 2 r
  let r ← expectChar ':' r
  let r ← takeDigits 2 r
  let r ← expectChar '.' r
  takeDigits 3 r

/-- The severity alternation `(ERROR|WARN|INFO|DEBUG|TRACE)` (no token is a
prefix of another, so at most one branch can match at a given position). -/
def parseLevel (cs : List Char) : Option (String × List Char) :=
  ((expectLit "ERROR".data cs).map (fun r => ("ERROR", r))) <|>
  ((expectLit "WARN".data cs).map (fun r => ("WARN", r))) <|>
  ((expectLit "INFO".data cs).map (fun r => ("INFO", r))) <|>
  ((expectLit "DEBUG".data cs).map (fun r => ("DEBUG", r))) <|>
  ((expectLit "TRACE".data cs).map (fun r => ("TRACE", r)))

/-- The tail `\[([^\]]+)\]\s+([\w.$]+)\s*:\s*(.*)$`, returning
(thread, logger, message). -/
def parseTail (cs : List Char) : Option (String × String × String) := do
  let r ← expectChar '[' cs
  let (threadCs, r) ← takeWhile1P (fun c => c ≠ ']') r
  let r ← expectChar ']' r
  let (_, r) ← takeWhile1P isWsChar r
  let (loggerCs, r) ← takeWhile1P isWordDollarDot r
  let r := (takeWhileP isWsChar r).2
  let r ← expectChar ':' r
  let r := (takeWhileP isWsChar r).2
  if r.all isDotChar then
    some (String.mk threadCs, String.mk loggerCs, String.mk r)
  else
    none

/-- The optional source-context bracket `(?:\[[^\]]*\]\s+)?` followed by
`parseTail`; the bracketed branch is tried first, falling back to the bare
tail exactly as JS backtracking does. -/
def parseAfterDashes (cs : List Char) : Option (String × String × String) :=
  (do
    let r ← expectChar '[' cs
    let r := (takeWhileP (fun c => c ≠ ']') r).2
    let r ← expectChar ']' r
    let (_, r) ← takeWhile1P isWsChar r
    parseTail r) <|>
  parseTail cs

/-- Executable embedding of `LOG_LINE_REGEX.exec` on a whole line
(`trimmed.match(LOG_LINE_REGEX)` in `LogParser.parseLine`). -/
def matchHeader (s : String) : Option HeaderMatch := do
  let cs := s.data
  let r ← parseTsCore cs
  let r := (takeWhileP (fun c => !isWsChar c) r).2
  let timestamp := String.mk (cs.take (cs.length - r.length))
  let (_, r) ← takeWhile1P isWsChar r
  let (level, r) ← parseLevel r
  let (_, r) ← takeWhile1P isWsChar r
  let (pidCs, r) ← takeWhile1P Char.isDigit r
  let (_, r) ← takeWhile1P isWsChar r
  let r ← expectLit "---".data r
  let (_, r) ← takeWhile1P isWsChar r
  let (thread, logger, message) ← parseAfterDashes r
  some { timestamp := timestamp, level := level, pid := String.mk pidCs,
         thread := thread, logger := logger, message := message }

/-! ## The continuation-line regexes of `LogParser` -/

/-- `STACK_TRACE_LINE_REGEX = /^\s+at\s+/`. -/
def stackTraceLineTest (s : String) : Bool :=
  match takeWhile1P isWsChar s.data with
  | none => false
  | some (_, r) =>
    match r with
    | 'a' :: 't' :: r2 => (takeWhile1P isWsChar r2).isSome
    | _ => false

/-- `CAUSED_BY_REGEX = /^Caused by:\s+/`. -/
def causedByTest (s : String) : Bool :=
  let pre := "Caused by:".data
  pre.isPrefixOf s.data && (takeWhile1P isWsChar (s.data.drop pre.length)).isSome

/-- `EXCEPTION_LINE_REGEX = /^[\w.$]+(?:Exception|Error|Throwable)/`:
some non-empty `[\w.$]` prefix is immediately followed by one of the three
keywords (the existential over the split point is exactly what the
backtracking greedy `+` searches). -/
def exceptionLineTest (s : String) : Bool :=
  let cs := s.data
  (List.range (cs.length + 1)).any fun i =>
    decide (0 < i) && (cs.take i).all isWordDollarDot &&
      ("Exception".data.isPrefixOf (cs.drop i) ||
       "Error".data.isPrefixOf (cs.drop i) ||
       "Throwable".data.isPrefixOf (cs.drop i))

/-- The whole continuation-line classification test of
`LogParser.parseLine` (lines 76–82 of `LogParser.ts`): stack-trace marker,
`Caused by:`, exception-type prefix, leading tab, or `"    ..."`. -/
def isStackContinuation (trimmed : String) : Bool :=
  stackTraceLineTest trimmed || causedByTest trimmed ||
  exceptionLineTest trimmed || "\t".data.isPrefixOf trimmed.data ||
  "    ...".data.isPrefixOf trimmed.data

/-! ## The `LogParser` state machine -/

/-- One recognised structured line (`LogLine` in `src/types`), as constructed
by `LogParser.parseLine`. -/
structure LogLine where
  timestamp : String
  level : String
  pid : String
  thread : String
  logger : String
  message : String
  raw : String
deriving Repr, DecidableEq

/-- The fields of the in-progress `Partial<ErrorBlock>` stored in
`LogParser.currentError` (all of them are set when the record is opened). -/
structure OpenError where
  id : String
  timestamp : String
  level : String
  logger : String
  thread : String
  message : String
deriving Repr, DecidableEq

/-- A completed multi-line error block (`ErrorBlock` in `src/types`), as
built by `LogParser.flushCurrentError`. -/
structure ErrorBlock where
  id : String
  timestamp : String
  level : String
  logger : String
  thread : String
  message : String
  stackTrace : List String
  rawLines : List String
  serviceId : String
deriving Repr, DecidableEq

/-- The mutable fields of a `LogParser` instance. -/
structure ParserState where
  currentError : Option OpenError
  stackTraceBuffer : List String
  rawLinesBuffer : List String
  contextLinesBuffer : List String
  errorCounter : Nat
deriving Repr, DecidableEq

/-- A fresh `LogParser` (constructor state). -/
def initialParserState : ParserState :=
  { currentError := none, stackTraceBuffer := [], rawLinesBuffer := [],
    contextLinesBuffer := [], errorCounter := 0 }

/-- An event emitted by the parser: `this.emit('log', …)` or
`this.emit('error', …)`. -/
inductive Event where
  | log (l : LogLine)
  | err (e : ErrorBlock)
deriving Repr, DecidableEq

/-- `Event` discriminators. -/
def Event.isLog : Event → Bool
  | .log _ => true
  | .err _ => false

def Event.isErr : Event → Bool
  | .log _ => false
  | .err _ => true

/-- The id of an emitted error block, if the event is an error event. -/
def Event.errId : Event → Option String
  | .log _ => none
  | .err e => some e.id

/-- The decoration filter of `flushCurrentError` (line 110–114 of
`LogParser.ts`): keep a context line when its trim is non-empty and not
matched by `/^\*+$/`. -/
def isMeaningfulContext (line : String) : Bool :=
  let t := trimStr line
  t ≠ "" && !(t.data.all (fun c => c = '*'))

/-- The effective message computed by `flushCurrentError` (lines 105–116):
if the primary message is blank and context lines were collected, join the
meaningful context lines with `" | "`, falling back to the fixed placeholder
`"Error (see details)"` when nothing meaningful remains. -/
def effectiveMessage (primary : String) (contextLines : List String) : String :=
  if trimStr primary = "" ∧ contextLines ≠ [] then
    let joined := joinSep " | " (contextLines.filter isMeaningfulContext)
    if joined = "" then "Error (see details)" else joined
  else
    primary

/-- The `ErrorBlock` assembled by `flushCurrentError` (lines 120–132). -/
def mkFlushBlock (serviceId : String) (cur : OpenError) (s : ParserState)
    (message : String) : ErrorBlock :=
  { id := cur.id, timestamp := cur.timestamp, level := cur.level,
    logger := cur.logger, thread := cur.thread, message := message,
    stackTrace := s.stackTraceBuffer ++
      s.contextLinesBuffer.filter (fun l => trimStr l ≠ ""),
    rawLines := s.rawLinesBuffer, serviceId := serviceId }

/-- `LogParser.flushCurrentError` (lines 98–141): close and possibly emit the
open record, then clear every accumulation buffer. -/
def flushCurrentError (serviceId : String) (s : ParserState) :
    ParserState × List Event :=
  match s.currentError with
  | none => (s, [])
  | some cur =>
    let message := effectiveMessage cur.message s.contextLinesBuffer
    let cleared : ParserState :=
      { currentError := none, stackTraceBuffer := [], rawLinesBuffer := [],
        contextLinesBuffer := [], errorCounter := s.errorCounter }
    if trimStr message ≠ "" then
      (cleared, [Event.err (mkFlushBlock serviceId cur s message)])
    else
      (cleared, [])

/-- `LogParser.parseLine` (lines 29–92). -/
def parseLine (serviceId : String) (s : ParserState) (raw : String) :
    ParserState × List Event :=
  let trimmed := trimEndStr raw
  if trimmed = "" then
    match s.currentError with
    | some _ =>
      ({ s with rawLinesBuffer := s.rawLinesBuffer ++ [""],
                contextLinesBuffer := s.contextLinesBuffer ++ [""] }, [])
    | none => (s, [])
  else
    match matchHeader trimmed with
    | some m =>
      let flushed := flushCurrentError serviceId s
      let logLine : LogLine :=
        { timestamp := m.timestamp, level := m.level, pid := m.pid,
          thread := trimStr m.thread, logger := m.logger,
          message := m.message, raw := trimmed }
      if m.level = "ERROR" then
        let counter := flushed.1.errorCounter + 1
        let cur : OpenError :=
          { id := serviceId ++ "-err-" ++ Nat.repr counter,
            timestamp := m.timestamp, level := "ERROR", logger := m.logger,
            thread := trimStr m.thread, message := m.message }
        ({ currentError := some cur, stackTraceBuffer := [],
           rawLinesBuffer := [trimmed], contextLinesBuffer := [],
           errorCounter := counter }, flushed.2 ++ [Event.log logLine])
      else
        (flushed.1, flushed.2 ++ [Event.log logLine])
    | none =>
      match s.currentError with
      | some _ =>
        if isStackContinuation trimmed then
          ({ s with stackTraceBuffer := s.stackTraceBuffer ++ [trimmed],
                    rawLinesBuffer := s.rawLinesBuffer ++ [trimmed] }, [])
        else
          ({ s with contextLinesBuffer := s.contextLinesBuffer ++ [trimmed],
                    rawLinesBuffer := s.rawLinesBuffer ++ [trimmed] }, [])
      | none => (s, [])

/-- An operation applied to a `LogParser`: feed one raw line, or call
`flush()`. -/
inductive Op where
  | line (s : String)
  | flush
deriving Repr, DecidableEq

/-- Apply one operation. -/
def applyOp (serviceId : String) (s : ParserState) : Op → ParserState × List Event
  | .line l => parseLine serviceId s l
  | .flush => flushCurrentError serviceId s

/-- Run a sequence of operations, collecting the emitted events in order. -/
def runOps (serviceId : String) (s : ParserState) : List Op → ParserState × List Event
  | [] => (s, [])
  | op :: ops =>
    let r1 := applyOp serviceId s op
    let r2 := runOps serviceId r1.1 ops
    (r2.1, r1.2 ++ r2.2)

/-- The raw lines fed by a sequence of operations. -/
def linesOf (ops : List Op) : List String :=
  ops.filterMap fun op => match op with | .line l => some l | .flush => none

/-! ## A small executable regular-expression engine for `ERROR_PATTERNS`

Every quantifier in the `LocalAnalyzer` signature table ranges over a single
character class (`.*`, `\d+`, `\d{4,5}`), so the engine only needs literals,
single-character classes, sequencing, alternation and star-of-a-class.
`Re.run` returns every possible remainder after a match starting at the head
of the input; `Re.test` searches every start position, which is exactly the
semantics of `RegExp.prototype.test` for these flag-`i`-only patterns.  Case
folding is performed by lowercasing the search text; all pattern literals
below are written pre-lowercased. -/

inductive Re where
  | eps
  | cls (p : Char → Bool)
  | lit (s : List Char)
  | seq (a b : Re)
  | alt (a b : Re)
  | starC (p : Char → Bool)

/-- All remainders of matching `(cls p)*` at the head of the input. -/
def starRun (p : Char → Bool) : List Char → List (List Char)
  | [] => [[]]
  | c :: cs => (c :: cs) :: (if p c then starRun p cs else [])

/-- All remainders of matching a regex at the head of the input. -/
def Re.run : Re → List Char → List (List Char)
  | .eps, cs => [cs]
  | .cls _, [] => []
  | .cls p, c :: cs => if p c then [cs] else []
  | .lit s, cs => if s.isPrefixOf cs then [cs.drop s.length] else []
  | .seq a b, cs => (a.run cs).flatMap b.run
  | .alt a b, cs => a.run cs ++ b.run cs
  | .starC p, cs => starRun p cs

/-- All suffixes of a character list (the candidate match start positions). -/
def suffixesOf : List Char → List (List Char)
  | [] => [[]]
  | c :: cs => (c :: cs) :: suffixesOf cs

/-- `RegExp.prototype.test` (no anchors): some match starts somewhere. -/
def Re.test (r : Re) (s : String) : Bool :=
  (suffixesOf s.data).any fun cs => !(r.run cs).isEmpty

/-- Case-insensitive test (`/…/i`): lowercase the text; the pattern literals
are written lowercased. -/
def Re.testI (r : Re) (s : String) : Bool :=
  r.test (String.mk (s.data.map Char.toLower))

/-- Literal-string pattern. -/
def Re.s (str : String) : Re := .lit str.data

/-- `.*` (dot does not match line terminators). -/
def Re.dotStar : Re := .starC isDotChar

/-- `\d` and `\d+`. -/
def Re.digit : Re := .cls Char.isDigit

def Re.digits1 : Re := .seq Re.digit (.starC Char.isDigit)

/-- Alternation of a list of patterns (`a|b|…`). -/
def Re.oneOf : List Re → Re
  | [] => .cls fun _ => false
  | [r] => r
  | r :: rs => .alt r (Re.oneOf rs)

/-- Concatenation of a list of patterns. -/
def Re.cat : List Re → Re
  | [] => .eps
  | [r] => r
  | r :: rs => .seq r (Re.cat rs)

/-! ## `LocalAnalyzer.ts`: the signature table and the first-match classifier -/

/-- One entry of `ERROR_PATTERNS` (`interface ErrorPattern`).  The JS float
confidences are exact decimal fractions, modelled as rationals. -/
structure ErrorPattern where
  name : String
  pattern : Re
  title : String
  description : String
  suggestion : String
  confidence : ℚ

/-- An analysis result (`AnalysisResult` in `src/types`), restricted to the
fields the local analyzer and the rate-limit path populate. -/
structure AnalysisResult where
  errorId : String
  serviceId : String
  analysisType : String
  title : String
  description : String
  suggestion : String
  confidence : ℚ
  timestamp : String
  errorBlock : ErrorBlock
deriving Repr, DecidableEq

/-- The ordered signature table `ERROR_PATTERNS` of `LocalAnalyzer.ts`
(declaration order preserved; regex literals pre-lowercased for the
case-insensitive engine). -/
def ERROR_PATTERNS : List ErrorPattern := [
  { name := "NullPointerException",
    pattern := Re.s "nullpointerexception",
    title := "Null Pointer Exception",
    description := "null 참조에 대해 메서드를 호출하거나 필드에 접근하려 했습니다.",
    suggestion := "1. 해당 객체가 null이 될 수 있는 경로를 확인하세요.\n2. Optional<T>을 사용하여 null 안전하게 처리하세요.\n3. @NonNull / @Nullable 어노테이션을 활용하세요.\n4. 스택트레이스에서 정확한 라인 번호를 확인하고 해당 변수의 초기화 여부를 점검하세요.",
    confidence := 0.85 },
  { name := "ClassNotFoundException",
    pattern := Re.oneOf [Re.s "classnotfoundexception", Re.s "noclassdeffounderror"],
    title := "Class Not Found",
    description := "필요한 클래스를 classpath에서 찾을 수 없습니다.",
    suggestion := "1. build.gradle 또는 pom.xml에서 필요한 의존성이 포함되어 있는지 확인하세요.\n2. 패키지명과 클래스명의 오타를 확인하세요.\n3. `./gradlew dependencies` 또는 `mvn dependency:tree`로 의존성 트리를 점검하세요.\n4. IDE의 캐시를 정리하고 다시 빌드해보세요.",
    confidence := 0.8 },
  { name := "BeanCreationException",
    pattern := Re.oneOf [Re.s "beancreationexception", Re.s "beaninstantiationexception"],
    title := "Bean Creation Failed",
    description := "Spring Bean 생성 중 오류가 발생했습니다. 순환 참조, 생성자 매개변수 불일치, 또는 초기화 실패일 수 있습니다.",
    suggestion := "1. 순환 참조(Circular Dependency)가 없는지 확인하세요.\n2. @Lazy 어노테이션으로 순환 참조를 해결할 수 있습니다.\n3. 생성자의 매개변수 타입과 Bean 정의가 일치하는지 확인하세요.\n4. @Configuration 클래스의 @Bean 메서드가 올바르게 설정되었는지 점검하세요.",
    confidence := 0.8 },
  { name := "NoSuchBeanDefinitionException",
    pattern := Re.s "nosuchbeandefinitionexception",
    title := "Bean Not Found",
    description := "요청된 타입 또는 이름의 Bean을 Spring 컨테이너에서 찾을 수 없습니다.",
    suggestion := "1. 해당 클래스에 @Component, @Service, @Repository, @Controller 어노테이션이 있는지 확인하세요.\n2. @ComponentScan의 base-package가 올바른지 확인하세요.\n3. 인터페이스를 주입하는 경우 구현체가 존재하는지 확인하세요.\n4. 프로파일(@Profile) 설정이 현재 활성 프로파일과 일치하는지 확인하세요.",
    confidence := 0.85 },
  { name := "PortAlreadyInUse",
    pattern := Re.oneOf [Re.s "address already in use",
      Re.cat [Re.s "bindexception", Re.dotStar,
        Re.digit, Re.digit, Re.digit, Re.digit, Re.alt Re.digit Re.eps],
      Re.s "portinuseexception"],
    title := "Port Already In Use",
    description := "지정된 포트가 이미 다른 프로세스에 의해 사용 중입니다.",
    suggestion := "1. `netstat -ano | findstr :<port>` (Windows) 또는 `lsof -i :<port>` (Mac/Linux)로 포트 사용 중인 프로세스를 확인하세요.\n2. application.properties에서 `server.port`를 다른 값으로 변경하세요.\n3. 기존 프로세스를 종료하세요.\n4. 랜덤 포트를 사용하려면 `server.port=0`으로 설정하세요.",
    confidence := 0.95 },
  { name := "BadSqlGrammarException",
    pattern := Re.oneOf [Re.s "badsqlgrammarexception", Re.s "bad sql grammar",
      Re.s "### sql:", Re.s "### cause:", Re.s "statementcallback",
      Re.s "preparedstatementcallback", Re.s "cubridexception",
      Re.cat [Re.s "syntax error", Re.dotStar, Re.s "unexpected"]],
    title := "SQL Grammar Error (MyBatis/JPA)",
    description := "MyBatis Mapper XML 또는 JPA에서 실행된 SQL 쿼리의 문법 또는 컬럼·테이블명이 DB에서 인식되지 않습니다.",
    suggestion := "1. 에러 로그에서 \"### SQL:\" 구문과 \"### Cause:\" 아래 DB 오류 메시지를 확인하세요.\n2. Mapper XML의 쿼리에 사용된 컬럼명이 실제 테이블 스키마와 일치하는지 확인하세요.\n3. DB별 예약어 또는 대소문자 규칙을 확인하세요 (예: CUBRID은 대소문자 구분).\n4. UNION ALL 등 복합 쿼리 사용 시 각 SELECT의 컬럼 개수와 타입이 일치하는지 확인하세요.\n5. #\x7bparam\x7d 바인딩 타입이 컬럼 타입과 호환되는지 확인하세요.",
    confidence := 0.88 },
  { name := "DataAccessException",
    pattern := Re.oneOf [Re.s "dataaccessexception", Re.s "sqlexception",
      Re.s "jdbcconnectionexception", Re.s "cannotcreatetransactionexception",
      Re.s "mybatissystemexception", Re.s "persistenceexception"],
    title := "Database Access Error",
    description := "데이터베이스 연결 또는 쿼리 실행 중 오류가 발생했습니다.",
    suggestion := "1. application.properties의 DB 연결 정보(url, username, password)를 확인하세요.\n2. 데이터베이스 서버가 실행 중인지 확인하세요.\n3. 네트워크 연결 및 방화벽 설정을 점검하세요.\n4. 커넥션 풀 설정(HikariCP)이 적절한지 확인하세요.\n5. DDL auto 설정(`spring.jpa.hibernate.ddl-auto`)을 확인하세요.",
    confidence := 0.75 },
  { name := "HttpMessageNotReadableException",
    pattern := Re.oneOf [Re.s "httpmessagenotreadableexception",
      Re.s "jsonparseexception", Re.s "jsonmappingexception"],
    title := "Invalid Request Body",
    description := "HTTP 요청 본문을 파싱할 수 없습니다. JSON 형식이 잘못되었거나 타입이 맞지 않습니다.",
    suggestion := "1. 요청 본문의 JSON 형식이 올바른지 확인하세요.\n2. Content-Type 헤더가 application/json인지 확인하세요.\n3. DTO 클래스의 필드 타입이 요청 데이터와 일치하는지 확인하세요.\n4. @RequestBody 어노테이션이 올바르게 사용되었는지 확인하세요.",
    confidence := 0.9 },
  { name := "MethodArgumentNotValidException",
    pattern := Re.oneOf [Re.s "methodargumentnotvalidexception",
      Re.s "constraintviolationexception", Re.s "validation failed for argument",
      Re.s "rejected value", Re.s "field error in object"],
    title := "Validation Failed",
    description := "요청 데이터의 유효성 검증에 실패했습니다. 필드 값이 제약 조건(@Size, @NotNull, @Min 등)을 위반했습니다.",
    suggestion := "1. 에러 메시지에서 \"Field error in object\" 아래 어떤 필드가 어떤 조건을 위반했는지 확인하세요.\n2. DTO 클래스의 @Valid, @NotNull, @NotBlank, @Size 등의 검증 어노테이션을 확인하세요.\n3. 요청 데이터가 검증 조건(최소/최대 크기, 필수값 등)을 만족하는지 확인하세요.\n4. 커스텀 Validator가 올바르게 구현되었는지 점검하세요.\n5. @ExceptionHandler(MethodArgumentNotValidException.class)를 통해 적절한 에러 응답을 반환하도록 처리하세요.",
    confidence := 0.9 },
  { name := "OutOfMemoryError",
    pattern := Re.oneOf [Re.s "outofmemoryerror", Re.s "java heap space",
      Re.s "gc overhead limit"],
    title := "Out of Memory",
    description := "JVM 메모리가 부족합니다.",
    suggestion := "1. JVM 힙 메모리를 증가시키세요: `-Xmx512m` → `-Xmx1024m`\n2. 메모리 누수가 있는지 프로파일링 도구로 확인하세요.\n3. 대량 데이터 처리 시 페이징 또는 스트리밍을 사용하세요.\n4. 불필요한 객체 참조를 해제하세요.",
    confidence := 0.8 },
  { name := "StackOverflowError",
    pattern := Re.s "stackoverflowerror",
    title := "Stack Overflow",
    description := "재귀 호출이 너무 깊거나 무한 루프가 발생했습니다.",
    suggestion := "1. 스택트레이스에서 반복되는 메서드 호출 패턴을 찾으세요.\n2. 재귀의 종료 조건을 확인하세요.\n3. 엔티티 간 양방향 관계에서 toString(), hashCode() 등이 무한 재귀를 일으키지 않는지 확인하세요.\n4. @JsonIgnore 또는 @ToString.Exclude를 사용하여 순환 참조를 방지하세요.",
    confidence := 0.85 },
  { name := "HttpRequestMethodNotSupportedException",
    pattern := Re.oneOf [Re.s "httprequestmethodnotsupportedexception",
      Re.cat [Re.s "request method ", Re.dotStar, Re.s " not supported"]],
    title := "HTTP Method Not Supported",
    description := "요청한 HTTP 메서드(GET, POST, PUT 등)를 해당 엔드포인트에서 지원하지 않습니다.",
    suggestion := "1. 클라이언트가 올바른 HTTP 메서드를 사용하는지 확인하세요 (예: GET → POST).\n2. @GetMapping, @PostMapping 등 컨트롤러의 매핑 어노테이션을 확인하세요.\n3. Swagger/API 문서에서 해당 엔드포인트가 허용하는 메서드를 확인하세요.",
    confidence := 0.95 },
  { name := "NoHandlerFoundException",
    pattern := Re.oneOf [Re.s "nohandlerfoundexception", Re.s "no handler found for",
      Re.s "noresourcefoundexception"],
    title := "404 - Handler Not Found",
    description := "요청한 URL에 매핑된 컨트롤러 또는 정적 리소스가 없습니다.",
    suggestion := "1. 요청 URL과 컨트롤러의 @RequestMapping / @GetMapping 경로가 일치하는지 확인하세요.\n2. URL 오타 및 대소문자를 확인하세요.\n3. @RestController / @Controller 어노테이션이 누락되지 않았는지 확인하세요.\n4. Spring MVC 설정에서 `spring.mvc.throw-exception-if-no-handler-found=true`와 `spring.web.resources.add-mappings=false`를 설정하면 이 예외가 발생합니다.",
    confidence := 0.92 },
  { name := "AccessDeniedException",
    pattern := Re.oneOf [Re.s "accessdeniedexception", Re.s "access is denied",
      Re.s "access denied"],
    title := "Access Denied (권한 없음)",
    description := "Spring Security에서 현재 사용자의 권한이 해당 리소스 접근에 충분하지 않습니다.",
    suggestion := "1. 현재 사용자의 Role/Authority가 @PreAuthorize, @Secured 또는 SecurityConfig의 조건을 만족하는지 확인하세요.\n2. JWT 토큰이나 세션이 올바른 권한(Role)을 포함하고 있는지 확인하세요.\n3. SecurityConfig의 `.antMatchers()` / `.requestMatchers()` 설정을 점검하세요.\n4. @EnableMethodSecurity (또는 @EnableGlobalMethodSecurity) 어노테이션이 활성화되어 있는지 확인하세요.",
    confidence := 0.90 },
  { name := "AuthenticationException",
    pattern := Re.oneOf [Re.s "authenticationexception",
      Re.s "insufficientauthenticationexception", Re.s "badcredentialsexception",
      Re.s "usernamenotfoundexception", Re.s "jwtexception",
      Re.s "expiredjwtexception", Re.s "signatureexception"],
    title := "Authentication Failed (인증 실패)",
    description := "사용자 인증에 실패했습니다. 잘못된 자격증명, 만료된 토큰, 또는 서명 불일치가 원인일 수 있습니다.",
    suggestion := "1. JWT를 사용하는 경우 토큰 만료 여부(exp claim)를 확인하세요.\n2. JWT Secret Key가 서명·검증 양쪽에서 동일한지 확인하세요.\n3. UsernameNotFoundException: UserDetailsService에서 해당 사용자가 존재하는지 확인하세요.\n4. BadCredentialsException: 비밀번호 인코더(BCryptPasswordEncoder 등)가 일치하는지 확인하세요.\n5. 인증 필터(JwtAuthenticationFilter 등)의 순서와 설정을 점검하세요.",
    confidence := 0.88 },
  { name := "TransactionRollback",
    pattern := Re.oneOf [Re.s "transactionsystemexception", Re.s "rollbackexception",
      Re.s "unexpectedrollbackexception",
      Re.cat [Re.s "transaction", Re.dotStar, Re.s "rolled back"],
      Re.cat [Re.s "rollback", Re.dotStar, Re.s "exception"]],
    title := "Transaction Rollback",
    description := "트랜잭션이 예기치 않게 롤백되었습니다.",
    suggestion := "1. @Transactional 메서드 내에서 RuntimeException이 발생했는지 확인하세요.\n2. rollbackFor / noRollbackFor 설정이 의도와 맞는지 확인하세요.\n3. 중첩 트랜잭션(REQUIRES_NEW, NESTED)의 propagation 설정을 점검하세요.\n4. 체크드 예외(Checked Exception)는 기본적으로 롤백되지 않으므로 rollbackFor를 명시하세요.",
    confidence := 0.82 },
  { name := "DuplicateKeyException",
    pattern := Re.oneOf [Re.s "duplicatekeyexception", Re.s "duplicate entry",
      Re.s "duplicate key value", Re.s "unique constraint", Re.s "ora-00001",
      Re.s "error 1062"],
    title := "Duplicate Key / Unique Constraint Violation",
    description := "DB의 PK 또는 Unique 제약 조건을 위반하는 중복 데이터를 삽입하려 했습니다.",
    suggestion := "1. INSERT 전에 중복 여부를 먼저 조회(existsBy...)하거나 upsert 쿼리를 사용하세요.\n2. 에러 메시지에서 중복된 키 값과 컬럼명을 확인하세요.\n3. JPA의 경우 merge() 대신 save()를 잘못 사용한 경우가 아닌지 확인하세요.\n4. 배치 처리 시 동시성 문제로 발생할 수 있으므로 분산 락(Distributed Lock)을 고려하세요.",
    confidence := 0.90 },
  { name := "LazyInitializationException",
    pattern := Re.oneOf [Re.s "lazyinitializationexception",
      Re.s "could not initialize proxy", Re.s "failed to lazily initialize"],
    title := "Lazy Initialization Exception (JPA)",
    description := "JPA 영속성 컨텍스트(Session)가 닫힌 후 지연 로딩(Lazy Loading) 프록시에 접근하려 했습니다.",
    suggestion := "1. @Transactional 범위 밖에서 연관 엔티티에 접근하는 코드를 확인하세요.\n2. JPQL에서 fetch join을 사용하여 필요한 연관 데이터를 즉시 로딩하세요.\n3. DTO로 변환하는 작업을 트랜잭션 내부에서 수행하세요.\n4. 필요한 경우 FetchType.EAGER로 변경하되 N+1 문제에 주의하세요.\n5. Open Session In View 패턴은 안티패턴으로 권장되지 않습니다.",
    confidence := 0.93 },
  { name := "TimeoutException",
    pattern := Re.oneOf [Re.s "timeoutexception", Re.s "read timed out",
      Re.s "connection timed out", Re.s "sockettimeoutexception",
      Re.s "connecttimeoutexception", Re.s "gateway timeout"],
    title := "Timeout",
    description := "외부 API 호출, DB 쿼리, 또는 네트워크 연결이 설정된 제한 시간을 초과했습니다.",
    suggestion := "1. 슬로우 쿼리 여부를 DB의 slow query log로 확인하고 인덱스를 점검하세요.\n2. RestTemplate/WebClient의 connectTimeout, readTimeout 설정값을 확인하세요.\n3. 외부 서비스의 응답이 지연되는 경우 Circuit Breaker(Resilience4j)를 도입하세요.\n4. HikariCP의 connectionTimeout, idleTimeout 설정을 점검하세요.",
    confidence := 0.83 },
  { name := "MissingServletRequestParameterException",
    pattern := Re.oneOf [Re.s "missingservletrequestparameterexception",
      Re.s "missingpathvariableexception", Re.s "required request parameter",
      Re.s "required uri template variable"],
    title := "Required Request Parameter Missing",
    description := "필수 요청 파라미터(@RequestParam) 또는 경로 변수(@PathVariable)가 요청에 포함되지 않았습니다.",
    suggestion := "1. 에러 메시지에서 누락된 파라미터 이름을 확인하세요.\n2. 선택적 파라미터라면 @RequestParam(required = false, defaultValue = \"...\")을 사용하세요.\n3. 클라이언트 요청 URL/Body에 해당 파라미터가 포함되어 있는지 확인하세요.\n4. @PathVariable의 경우 URL 템플릿 경로와 변수명이 일치하는지 확인하세요.",
    confidence := 0.92 },
  { name := "MultipartException",
    pattern := Re.oneOf [Re.s "multipartexception", Re.s "maxuploadsizeexceededexception",
      Re.s "filesizelimitexceededexception",
      Re.cat [Re.s "multipart", Re.dotStar, Re.s "exceeded"]],
    title := "File Upload Size Exceeded",
    description := "업로드한 파일 또는 요청 크기가 설정된 최대값을 초과했습니다.",
    suggestion := "1. application.properties에서 업로드 크기 제한을 조정하세요:\n   - `spring.servlet.multipart.max-file-size=10MB`\n   - `spring.servlet.multipart.max-request-size=20MB`\n2. Nginx 등 리버스 프록시를 사용하는 경우 `client_max_body_size`도 함께 조정하세요.\n3. 대용량 파일은 분할 업로드(Multipart Upload) 방식을 고려하세요.",
    confidence := 0.92 },
  { name := "UnsatisfiedDependencyException",
    pattern := Re.oneOf [Re.s "unsatisfieddependencyexception",
      Re.s "unsatisfied dependency expressed through",
      Re.cat [Re.s "parameter ", Re.digits1, Re.s " of constructor in"]],
    title := "Unsatisfied Dependency (의존성 주입 실패)",
    description := "Spring이 Bean을 생성할 때 생성자 또는 필드에 주입할 의존성을 해결하지 못했습니다. 주로 Bean이 없거나, 타입이 일치하지 않거나, 순환 참조가 원인입니다.",
    suggestion := "1. 에러 메시지의 \"parameter N of constructor in ...\" 부분에서 어떤 Bean이 문제인지 확인하세요.\n2. 해당 클래스에 @Component / @Service / @Repository 등의 어노테이션이 있는지 확인하세요.\n3. 인터페이스를 주입받는 경우, 구현체가 하나인지 확인하세요 (여럿이면 @Qualifier 사용).\n4. 순환 참조라면 @Lazy를 한 쪽에 붙이거나, 설계를 재검토하세요.\n5. `spring.main.allow-circular-references=true`는 임시 방편이므로 근본 원인을 수정하세요.",
    confidence := 0.90 },
  { name := "CircularDependencyException",
    pattern := Re.oneOf [
      Re.s "the dependencies of some of the beans in the application context form a cycle",
      Re.s "circular dependency", Re.s "circular reference"],
    title := "Circular Dependency (순환 참조)",
    description := "Bean A가 Bean B를 의존하고, Bean B가 다시 Bean A를 의존하는 순환 참조가 발생했습니다. Spring Boot 2.6 이상에서는 기본적으로 순환 참조를 허용하지 않습니다.",
    suggestion := "1. 에러 메시지에 표시된 순환 참조 체인(A → B → A)을 확인하세요.\n2. 의존 관계를 재설계하여 순환을 끊으세요 (예: 공통 로직을 별도 서비스로 분리).\n3. 한쪽에 @Lazy 어노테이션을 추가하면 초기화 시점을 늦춰 해결할 수 있습니다.\n4. 생성자 주입 대신 세터 주입(@Setter + @Autowired)으로 임시 해결할 수 있습니다.\n5. 임시 방편으로 spring.main.allow-circular-references=true를 설정할 수 있지만, 근본 원인 수정을 권장합니다.",
    confidence := 0.95 },
  { name := "PropertyNotFoundException",
    pattern := Re.oneOf [Re.s "could not resolve placeholder",
      Re.cat [Re.s "illegalargumentexception", Re.dotStar, Re.s "$\x7b"],
      Re.s "no such property", Re.s "could not bind properties",
      Re.cat [Re.s "binding to target ", Re.dotStar, Re.s " failed"],
      Re.s "failed to bind properties"],
    title := "Property / Configuration Binding 실패",
    description := "application.properties (또는 yml)에 필요한 설정값이 없거나, @ConfigurationProperties 바인딩에 실패했습니다.",
    suggestion := "1. 에러 메시지에서 어떤 키가 누락됐는지 확인하세요 (예: $\x7bmy.config.key\x7d).\n2. application.properties 또는 application.yml에 해당 키가 정의되어 있는지 확인하세요.\n3. 활성 프로파일(spring.profiles.active)에 맞는 properties 파일이 로드되고 있는지 확인하세요.\n4. @ConfigurationProperties 클래스의 필드 타입이 설정값과 호환되는지 확인하세요.\n5. 환경 변수나 시스템 프로퍼티로 값을 주입하는 경우, 해당 값이 실제로 설정되어 있는지 확인하세요.",
    confidence := 0.88 },
  { name := "ConnectException",
    pattern := Re.oneOf [Re.s "connectexception", Re.s "connection refused",
      Re.s "econnrefused", Re.s "failed to connect", Re.s "unable to connect to",
      Re.s "connect timed out", Re.s "cannot connect to"],
    title := "Connection Refused (외부 서비스 연결 실패)",
    description := "외부 서비스(데이터베이스, Redis, Kafka, 외부 API 등)에 연결할 수 없습니다. 대상 서버가 실행 중이지 않거나 네트워크/방화벽 문제일 수 있습니다.",
    suggestion := "1. 대상 서버(DB, Redis, Kafka 등)가 실행 중인지 확인하세요.\n2. application.properties의 연결 정보(host, port)가 올바른지 확인하세요.\n3. 방화벽 또는 보안 그룹 설정에서 해당 포트가 열려 있는지 확인하세요.\n4. Docker 환경이라면 컨테이너 간 네트워크 설정(docker-compose network)을 확인하세요.\n5. 연결 재시도 로직(Retry)이나 Circuit Breaker(Resilience4j)를 도입하여 장애 내성을 높이세요.",
    confidence := 0.87 },
  { name := "EntityNotFoundException",
    pattern := Re.oneOf [Re.s "entitynotfoundexception",
      Re.s "javax.persistence.entitynotfoundexception",
      Re.s "jakarta.persistence.entitynotfoundexception",
      Re.s "no entity found for query",
      Re.cat [Re.s "unable to find ", Re.dotStar, Re.s " with id"]],
    title := "Entity Not Found (JPA)",
    description := "요청한 ID에 해당하는 엔티티가 데이터베이스에 존재하지 않습니다.",
    suggestion := "1. 조회하는 ID 값이 실제로 DB에 존재하는지 확인하세요.\n2. findById() 대신 getById() / getReferenceById()를 사용하면 이 예외가 발생할 수 있습니다. findById()를 사용하고 Optional을 처리하세요.\n3. 삭제된 데이터를 조회하는 경우라면 soft delete 여부를 확인하세요.\n4. 테스트 데이터(Seed Data)가 초기화되어 있는지 확인하세요.\n5. @ExceptionHandler(EntityNotFoundException.class)로 적절한 404 응답을 반환하도록 처리하세요.",
    confidence := 0.90 },
  { name := "OptimisticLockingException",
    pattern := Re.oneOf [Re.s "optimisticlockingfailureexception",
      Re.s "objectoptimisticlockingfailureexception",
      Re.s "staleobjectstateexception", Re.s "optimisticlock",
      Re.s "row was updated or deleted by another transaction"],
    title := "Optimistic Locking 충돌",
    description := "동시에 같은 엔티티를 수정하려는 트랜잭션이 충돌하여 낙관적 잠금(Optimistic Locking) 예외가 발생했습니다. 다른 트랜잭션이 먼저 해당 행을 수정했습니다.",
    suggestion := "1. 엔티티에 @Version 필드가 올바르게 설정되어 있는지 확인하세요.\n2. 충돌 발생 시 재시도(Retry) 로직을 구현하세요 (Spring Retry의 @Retryable 활용).\n3. 충돌이 잦다면 비즈니스 로직을 재검토하거나, 필요한 경우 비관적 잠금(@Lock(LockModeType.PESSIMISTIC_WRITE))으로 전환하세요.\n4. 클라이언트에 409 Conflict 응답을 반환하여 재시도를 유도하세요.\n5. 배치 처리 시 단위를 작게 나누어 충돌 범위를 줄이세요.",
    confidence := 0.92 }]

/-- The search text of `LocalAnalyzer.analyze`/`canHandle`:
`[error.message, ...error.stackTrace].join('\n')`. -/
def fullTextOf (e : ErrorBlock) : String :=
  joinSep "\n" (e.message :: e.stackTrace)

/-- The verdict built for a matching pattern inside `LocalAnalyzer.analyze`
(`now` stands for `new Date().toISOString()`). -/
def mkLocalResult (now : String) (e : ErrorBlock) (p : ErrorPattern) : AnalysisResult :=
  { errorId := e.id, serviceId := e.serviceId, analysisType := "local",
    title := p.title, description := p.description, suggestion := p.suggestion,
    confidence := p.confidence, timestamp := now, errorBlock := e }

/-- `LocalAnalyzer.analyze` (lines 293–313): try the rules in declaration
order, return the verdict of the first whose signature matches the search
text, `null` if none matches. -/
def LocalAnalyzer.analyze (now : String) (e : ErrorBlock) : Option AnalysisResult :=
  (ERROR_PATTERNS.find? fun p => p.pattern.testI (fullTextOf e)).map
    (mkLocalResult now e)

/-- `LocalAnalyzer.canHandle` (lines 288–291). -/
def LocalAnalyzer.canHandle (e : ErrorBlock) : Bool :=
  ERROR_PATTERNS.any fun p => p.pattern.testI (fullTextOf e)

/-! ## `ClaudeAnalyzer.ts`: the rate-limiting guard

The network call itself is out of scope (it is an external collaborator);
`ClaudeAnalyzer.analyze` is embedded up to the decision it makes before the
request is sent: return `null` when unconfigured, return the fixed
rate-limited result when the rolling-minute window is full, or enter the
network path (after recording the attempt timestamp).  `Date.now()` values
are passed in explicitly as integer milliseconds. -/

/-- The mutable fields of a `ClaudeAnalyzer` that the guard touches
(`client !== null` is abstracted to the Boolean `configured`). -/
structure ClaudeState where
  configured : Bool
  model : String
  maxRequestsPerMinute : Nat
  requestTimestamps : List Int
deriving Repr, DecidableEq

/-- The outcome of one `analyze` call, up to the network path. -/
inductive GatewayOutcome where
  | notConfigured
  | rateLimited (r : AnalysisResult)
  | proceed
deriving Repr, DecidableEq

/-- `ClaudeAnalyzer.canMakeRequest` (lines 165–170): prune the rolling
one-minute window (this reassigns `requestTimestamps`) and compare the count
against the ceiling. -/
def canMakeRequest (now : Int) (st : ClaudeState) : ClaudeState × Bool :=
  let kept := st.requestTimestamps.filter fun t => t > now - 60000
  ({ st with requestTimestamps := kept },
   decide (kept.length < st.maxRequestsPerMinute))

/-- The fixed rate-limited result returned by `ClaudeAnalyzer.analyze`
(lines 181–193). -/
def rateLimitedResult (e : ErrorBlock) (nowIso : String) : AnalysisResult :=
  { errorId := e.id, serviceId := e.serviceId, analysisType := "ai",
    title := "Rate Limited",
    description := "AI 분석 요청이 분당 최대 횟수를 초과했습니다.",
    suggestion := "잠시 후 다시 시도해주세요.",
    confidence := 0, timestamp := nowIso, errorBlock := e }

/-- The guard portion of `ClaudeAnalyzer.analyze` (lines 176–196): `null`
when no client is configured; the deterministic rate-limited result when the
window is full; otherwise record the attempt timestamp (`recordRequest`,
line 172–174, called before the request is sent) and enter the network
path. -/
def analyzeGuard (now : Int) (nowIso : String) (e : ErrorBlock)
    (st : ClaudeState) : ClaudeState × GatewayOutcome :=
  if st.configured = false then
    (st, .notConfigured)
  else
    let pruned := canMakeRequest now st
    if pruned.2 = false then
      (pruned.1, .rateLimited (rateLimitedResult e nowIso))
    else
      ({ pruned.1 with
         requestTimestamps := pruned.1.requestTimestamps ++ [now] }, .proceed)

/-- A sequence of `analyze` calls at the given times (same error block and
ISO timestamp throughout; neither influences the guard). -/
def runGateway (nowIso : String) (e : ErrorBlock) (st : ClaudeState) :
    List Int → ClaudeState × List GatewayOutcome
  | [] => (st, [])
  | t :: ts =>
    let r1 := analyzeGuard t nowIso e st
    let r2 := runGateway nowIso e r1.1 ts
    (r2.1, r1.2 :: r2.2)

/-! ## `Nat.repr` is injective

`LogParser` ids are the strings `` `${serviceId}-err-${++this.errorCounter}` ``;
to show that distinct counters give distinct ids we prove that the decimal
representation `Nat.repr` is injective, by exhibiting its left inverse
(decimal evaluation of the digit list). -/

/-- Decimal value of a digit-character list (most significant first). -/
def decVal : List Char → Nat
  | [] => 0
  | c :: cs => (c.toNat - 48) * 10 ^ cs.length + decVal cs

theorem decVal_append (xs ys : List Char) :
    decVal (xs ++ ys) = decVal xs * 10 ^ ys.length + decVal ys := by
  induction xs with
  | nil => simp [decVal]
  | cons c cs ih =>
    simp only [List.cons_append, decVal, List.append_eq, ih]
    rw [List.length_append, pow_add]
    ring

theorem toDigitsCore_append (fuel n : Nat) (ds : List Char) :
    Nat.toDigitsCore 10 fuel n ds = Nat.toDigitsCore 10 fuel n [] ++ ds := by
  induction fuel generalizing n ds with
  | zero => simp [Nat.toDigitsCore]
  | succ f ih =>
    simp only [Nat.toDigitsCore]
    by_cases h : n / 10 = 0
    · simp [h]
    · simp only [h, if_false]
      rw [ih (n / 10) (Nat.digitChar (n % 10) :: ds),
          ih (n / 10) [Nat.digitChar (n % 10)], List.append_assoc]
      rfl

theorem digitChar_val : ∀ m : Nat, m < 10 → (Nat.digitChar m).toNat - 48 = m := by
  decide

theorem decVal_toDigitsCore (fuel n : Nat) (hf : 0 < fuel) (hn : n < 10 ^ fuel) :
    decVal (Nat.toDigitsCore 10 fuel n []) = n := by
  induction fuel generalizing n with
  | zero => omega
  | succ f ih =>
    simp only [Nat.toDigitsCore]
    by_cases h : n / 10 = 0
    · have hn10 : n < 10 := by omega
      have : n % 10 = n := Nat.mod_eq_of_lt hn10
      simp [h, decVal, this, digitChar_val n hn10]
    · have hge : 10 ≤ n := by
        by_contra hlt
        exact h (Nat.div_eq_of_lt (by omega))
      have hfpos : 0 < f := by
        by_contra hf0
        have : f = 0 := by omega
        subst this
        simp [pow_succ, pow_zero] at hn
        omega
      have hdiv : n / 10 < 10 ^ f := by
        rw [Nat.div_lt_iff_lt_mul (by norm_num)]
        calc n < 10 ^ (f + 1) := hn
        _ = 10 ^ f * 10 := by rw [pow_succ]
      simp only [h, if_false]
      rw [toDigitsCore_append, decVal_append, ih (n / 10) hfpos hdiv]
      have hm : n % 10 < 10 := Nat.mod_lt _ (by norm_num)
      simp [decVal, digitChar_val (n % 10) hm]
      omega

theorem nat_repr_injective : Function.Injective Nat.repr := by
  intro m n h
  have hdata : Nat.toDigitsCore 10 (m + 1) m [] = Nat.toDigitsCore 10 (n + 1) n [] := by
    have := congrArg String.data h
    simpa [Nat.repr, Nat.toDigits, List.asString] using this
  have hm : m < 10 ^ (m + 1) := by
    have := Nat.lt_pow_self (show 1 < 10 by norm_num) (m + 1)
    omega
  have hn : n < 10 ^ (n + 1) := by
    have := Nat.lt_pow_self (show 1 < 10 by norm_num) (n + 1)
    omega
  calc m = decVal (Nat.toDigitsCore 10 (m + 1) m []) :=
        (decVal_toDigitsCore (m + 1) m (Nat.succ_pos m) hm).symm
  _ = decVal (Nat.toDigitsCore 10 (n + 1) n []) := by rw [hdata]
  _ = n := decVal_toDigitsCore (n + 1) n (Nat.succ_pos n) hn

/-- Distinct error counters give distinct `LogParser` ids. -/
theorem errId_injective (sv : String) :
    Function.Injective fun n : Nat => sv ++ "-err-" ++ Nat.repr n := by
  intro m n h
  apply nat_repr_injective
  have := congrArg String.data h
  simp only [String.data_append] at this
  exact String.ext (List.append_cancel_left this)

/-! ## Step lemmas for the parser -/

theorem flushCurrentError_of_none (sv : String) (s : ParserState)
    (h : s.currentError = none) : flushCurrentError sv s = (s, []) := by
  simp [flushCurrentError, h]

/-- The state left behind by a flush of an open record. -/
def clearedState (s : ParserState) : ParserState :=
  { currentError := none, stackTraceBuffer := [], rawLinesBuffer := [],
    contextLinesBuffer := [], errorCounter := s.errorCounter }

theorem flushCurrentError_of_some (sv : String) (s : ParserState) (cur : OpenError)
    (h : s.currentError = some cur) :
    flushCurrentError sv s =
      if trimStr (effectiveMessage cur.message s.contextLinesBuffer) ≠ "" then
        (clearedState s,
         [Event.err (mkFlushBlock sv cur s
            (effectiveMessage cur.message s.contextLinesBuffer))])
      else
        (clearedState s, []) := by
  simp only [flushCurrentError, h, clearedState]

theorem flushCurrentError_fst_currentError (sv : String) (s : ParserState) :
    ((flushCurrentError sv s).1).currentError = none := by
  cases hc : s.currentError with
  | none => rw [flushCurrentError_of_none sv s hc]; exact hc
  | some cur =>
    rw [flushCurrentError_of_some sv s cur hc]
    split <;> rfl

theorem flushCurrentError_events_shape (sv : String) (s : ParserState) :
    (flushCurrentError sv s).2 = [] ∨
      ∃ e : ErrorBlock, (flushCurrentError sv s).2 = [Event.err e] := by
  cases hc : s.currentError with
  | none => rw [flushCurrentError_of_none sv s hc]; exact Or.inl rfl
  | some cur =>
    rw [flushCurrentError_of_some sv s cur hc]
    split
    · exact Or.inr ⟨_, rfl⟩
    · exact Or.inl rfl

theorem flushCurrentError_countP_isLog (sv : String) (s : ParserState) :
    (flushCurrentError sv s).2.countP Event.isLog = 0 := by
  rcases flushCurrentError_events_shape sv s with h | ⟨e, h⟩ <;>
    simp [h, List.countP, Event.isLog, List.countP.go]

theorem parseLine_empty_none (sv : String) (s : ParserState) (l : String)
    (ht : trimEndStr l = "") (hc : s.currentError = none) :
    parseLine sv s l = (s, []) := by
  simp [parseLine, ht, hc]

theorem parseLine_empty_some (sv : String) (s : ParserState) (l : String)
    (cur : OpenError) (ht : trimEndStr l = "") (hc : s.currentError = some cur) :
    parseLine sv s l =
      ({ s with rawLinesBuffer := s.rawLinesBuffer ++ [""],
                contextLinesBuffer := s.contextLinesBuffer ++ [""] }, []) := by
  simp [parseLine, ht, hc]

theorem parseLine_header_error (sv : String) (s : ParserState) (l : String)
    (m : HeaderMatch) (ht : trimEndStr l ≠ "")
    (hm : matchHeader (trimEndStr l) = some m) (he : m.level = "ERROR") :
    parseLine sv s l =
      ({ currentError := some
           { id := sv ++ "-err-" ++ Nat.repr ((flushCurrentError sv s).1.errorCounter + 1),
             timestamp := m.timestamp, level := "ERROR", logger := m.logger,
             thread := trimStr m.thread, message := m.message },
         stackTraceBuffer := [], rawLinesBuffer := [trimEndStr l],
         contextLinesBuffer := [],
         errorCounter := (flushCurrentError sv s).1.errorCounter + 1 },
       (flushCurrentError sv s).2 ++
         [Event.log { timestamp := m.timestamp, level := m.level, pid := m.pid,
                      thread := trimStr m.thread, logger := m.logger,
                      message := m.message, raw := trimEndStr l }]) := by
  simp [parseLine, ht, hm, he]

theorem parseLine_header_other (sv : String) (s : ParserState) (l : String)
    (m : HeaderMatch) (ht : trimEndStr l ≠ "")
    (hm : matchHeader (trimEndStr l) = some m) (he : m.level ≠ "ERROR") :
    parseLine sv s l =
      ((flushCurrentError sv s).1,
       (flushCurrentError sv s).2 ++
         [Event.log { timestamp := m.timestamp, level := m.level, pid := m.pid,
                      thread := trimStr m.thread, logger := m.logger,
                      message := m.message, raw := trimEndStr l }]) := by
  simp [parseLine, ht, hm, he]

theorem parseLine_cont_stack (sv : String) (s : ParserState) (l : String)
    (cur : OpenError) (ht : trimEndStr l ≠ "")
    (hm : matchHeader (trimEndStr l) = none) (hc : s.currentError = some cur)
    (hs : isStackContinuation (trimEndStr l) = true) :
    parseLine sv s l =
      ({ s with stackTraceBuffer := s.stackTraceBuffer ++ [trimEndStr l],
                rawLinesBuffer := s.rawLinesBuffer ++ [trimEndStr l] }, []) := by
  simp [parseLine, ht, hm, hc, hs]

theorem parseLine_cont_context (sv : String) (s : ParserState) (l : String)
    (cur : OpenError) (ht : trimEndStr l ≠ "")
    (hm : matchHeader (trimEndStr l) = none) (hc : s.currentError = some cur)
    (hs : isStackContinuation (trimEndStr l) = false) :
    parseLine sv s l =
      ({ s with contextLinesBuffer := s.contextLinesBuffer ++ [trimEndStr l],
                rawLinesBuffer := s.rawLinesBuffer ++ [trimEndStr l] }, []) := by
  simp [parseLine, ht, hm, hc, hs]

theorem parseLine_orphan (sv : String) (s : ParserState) (l : String)
    (ht : trimEndStr l ≠ "") (hm : matchHeader (trimEndStr l) = none)
    (hc : s.currentError = none) :
    parseLine sv s l = (s, []) := by
  simp [parseLine, ht, hm, hc]

/-! ## Invariants of reachable parser states -/

/-- When no record is open, every accumulation buffer is empty. -/
def buffersClear (s : ParserState) : Prop :=
  s.currentError = none →
    s.stackTraceBuffer = [] ∧ s.rawLinesBuffer = [] ∧ s.contextLinesBuffer = []

theorem buffersClear_initial : buffersClear initialParserState := by
  intro _; exact ⟨rfl, rfl, rfl⟩

theorem buffersClear_flush (sv : String) (s : ParserState)
    (h : buffersClear s) : buffersClear (flushCurrentError sv s).1 := by
  cases hc : s.currentError with
  | none => rw [flushCurrentError_of_none sv s hc]; exact h
  | some cur =>
    rw [flushCurrentError_of_some sv s cur hc]
    split <;> exact fun _ => ⟨rfl, rfl, rfl⟩

theorem buffersClear_parseLine (sv : String) (s : ParserState) (l : String)
    (h : buffersClear s) : buffersClear (parseLine sv s l).1 := by
  by_cases ht : trimEndStr l = ""
  · cases hc : s.currentError with
    | none => rw [parseLine_empty_none sv s l ht hc]; exact h
    | some cur =>
      rw [parseLine_empty_some sv s l cur ht hc]
      intro hnone
      simp only at hnone
      rw [hc] at hnone
      exact absurd hnone (by simp)
  · cases hm : matchHeader (trimEndStr l) with
    | some m =>
      by_cases he : m.level = "ERROR"
      · rw [parseLine_header_error sv s l m ht hm he]
        intro hnone
        exact absurd hnone (by simp)
      · rw [parseLine_header_other sv s l m ht hm he]
        exact buffersClear_flush sv s h
    | none =>
      cases hc : s.currentError with
      | none => rw [parseLine_orphan sv s l ht hm hc]; exact h
      | some cur =>
        by_cases hs : isStackContinuation (trimEndStr l) = true
        · rw [parseLine_cont_stack sv s l cur ht hm hc hs]
          intro hnone
          simp only at hnone
          rw [hc] at hnone
          exact absurd hnone (by simp)
        · rw [parseLine_cont_context sv s l cur ht hm hc
            (Bool.not_eq_true _ ▸ hs)]
          intro hnone
          simp only at hnone
          rw [hc] at hnone
          exact absurd hnone (by simp)

theorem buffersClear_applyOp (sv : String) (s : ParserState) (op : Op)
    (h : buffersClear s) : buffersClear (applyOp sv s op).1 := by
  cases op with
  | line l => exact buffersClear_parseLine sv s l h
  | flush => exact buffersClear_flush sv s h

theorem buffersClear_runOps (sv : String) (ops : List Op) :
    ∀ s : ParserState, buffersClear s → buffersClear (runOps sv s ops).1 := by
  induction ops with
  | nil => intro s h; exact h
  | cons op ops ih =>
    intro s h
    exact ih (applyOp sv s op).1 (buffersClear_applyOp sv s op h)

/-- Splitting a run of operations at any point. -/
theorem runOps_append (sv : String) (l1 l2 : List Op) (s : ParserState) :
    runOps sv s (l1 ++ l2) =
      ((runOps sv (runOps sv s l1).1 l2).1,
       (runOps sv s l1).2 ++ (runOps sv (runOps sv s l1).1 l2).2) := by
  induction l1 generalizing s with
  | nil => simp [runOps]
  | cons op l1 ih =>
    simp only [List.cons_append, runOps, List.append_eq, ih (applyOp sv s op).1,
      List.append_assoc]

theorem flushCurrentError_fst_errorCounter (sv : String) (s : ParserState) :
    (flushCurrentError sv s).1.errorCounter = s.errorCounter := by
  cases hc : s.currentError with
  | none => rw [flushCurrentError_of_none sv s hc]
  | some cur =>
    rw [flushCurrentError_of_some sv s cur hc]
    split <;> rfl

/-! ## Identifier bookkeeping (for the never-reopened invariant) -/

/-- The ids of the error blocks among a list of events, in emission order. -/
def errIdsOf (evs : List Event) : List String :=
  evs.filterMap Event.errId

theorem errIdsOf_append (a b : List Event) :
    errIdsOf (a ++ b) = errIdsOf a ++ errIdsOf b := by
  simp [errIdsOf, List.filterMap_append]

/-- Invariant tying the counters `ns` of the already-emitted error blocks to
the parser state: counters strictly increase, never exceed the current
counter, and the open record (if any) carries the id of the current counter,
strictly above every emitted one. -/
def IdInv (sv : String) (ns : List Nat) (s : ParserState) : Prop :=
  List.Chain' (· < ·) ns ∧
  (∀ x ∈ ns, x ≤ s.errorCounter) ∧
  (∀ cur, s.currentError = some cur →
     cur.id = sv ++ "-err-" ++ Nat.repr s.errorCounter ∧
     ∀ x ∈ ns, x < s.errorCounter)

theorem chain'_append_singleton {ns : List Nat} {k : Nat}
    (hc : List.Chain' (· < ·) ns) (hlt : ∀ x ∈ ns, x < k) :
    List.Chain' (· < ·) (ns ++ [k]) := by
  rw [List.chain'_append]
  refine ⟨hc, List.chain'_singleton k, ?_⟩
  intro x hx y hy
  have hxm : x ∈ ns := List.mem_of_mem_getLast? hx
  simp only [List.head?_cons, Option.mem_def, Option.some.injEq] at hy
  subst hy
  exact hlt x hxm

theorem idInv_flush (sv : String) (s : ParserState) (ns : List Nat)
    (h : IdInv sv ns s) :
    ∃ ms : List Nat,
      errIdsOf (flushCurrentError sv s).2 =
        ms.map (fun n => sv ++ "-err-" ++ Nat.repr n) ∧
      IdInv sv (ns ++ ms) (flushCurrentError sv s).1 := by
  obtain ⟨hchain, hle, hopen⟩ := h
  cases hc : s.currentError with
  | none =>
    refine ⟨[], ?_, ?_⟩
    · rw [flushCurrentError_of_none sv s hc]; rfl
    · rw [flushCurrentError_of_none sv s hc, List.append_nil]
      exact ⟨hchain, hle, hopen⟩
  | some cur =>
    obtain ⟨hid, hlt⟩ := hopen cur hc
    rw [flushCurrentError_of_some sv s cur hc]
    by_cases hmsg : trimStr (effectiveMessage cur.message s.contextLinesBuffer) ≠ ""
    · rw [if_pos hmsg]
      refine ⟨[s.errorCounter], ?_, ?_, ?_, ?_⟩
      · simp [errIdsOf, Event.errId, mkFlushBlock, hid]
      · exact chain'_append_singleton hchain hlt
      · intro x hx
        rcases List.mem_append.mp hx with hx | hx
        · exact hle x hx
        · simp only [List.mem_singleton] at hx
          simp [clearedState, hx]
      · intro c hcontra
        exact absurd hcontra (by simp [clearedState])
    · rw [if_neg hmsg]
      refine ⟨[], ?_, ?_, ?_, ?_⟩
      · simp [errIdsOf]
      · simpa using hchain
      · intro x hx
        rw [List.append_nil] at hx
        simpa [clearedState] using hle x hx
      · intro c hcontra
        exact absurd hcontra (by simp [clearedState])

theorem idInv_congr (sv : String) (ns : List Nat) {s t : ParserState}
    (h : IdInv sv ns s) (hce : t.currentError = s.currentError)
    (hec : t.errorCounter = s.errorCounter) : IdInv sv ns t := by
  obtain ⟨h1, h2, h3⟩ := h
  refine ⟨h1, ?_, ?_⟩
  · intro x hx; rw [hec]; exact h2 x hx
  · intro cur hc
    rw [hce] at hc
    obtain ⟨ha, hb⟩ := h3 cur hc
    rw [hec]
    exact ⟨ha, hb⟩

theorem idInv_parseLine (sv : String) (s : ParserState) (l : String)
    (ns : List Nat) (h : IdInv sv ns s) :
    ∃ ms : List Nat,
      errIdsOf (parseLine sv s l).2 =
        ms.map (fun n => sv ++ "-err-" ++ Nat.repr n) ∧
      IdInv sv (ns ++ ms) (parseLine sv s l).1 := by
  by_cases ht : trimEndStr l = ""
  · cases hc : s.currentError with
    | none =>
      rw [parseLine_empty_none sv s l ht hc]
      exact ⟨[], rfl, by rw [List.append_nil]; exact h⟩
    | some cur =>
      rw [parseLine_empty_some sv s l cur ht hc]
      refine ⟨[], rfl, by rw [List.append_nil]; exact idInv_congr sv ns h rfl rfl⟩
  · cases hm : matchHeader (trimEndStr l) with
    | some m =>
      by_cases he : m.level = "ERROR"
      · rw [parseLine_header_error sv s l m ht hm he]
        obtain ⟨ms, hms, ⟨hch, hle, _⟩⟩ := idInv_flush sv s ns h
        refine ⟨ms, ?_, hch, ?_, ?_⟩
        · simpa [errIdsOf_append, errIdsOf, Event.errId] using hms
        · intro x hx
          have := hle x hx
          simp only
          omega
        · intro cur hcur
          simp only [Option.some.injEq] at hcur
          subst hcur
          refine ⟨rfl, ?_⟩
          intro x hx
          have := hle x hx
          simp only
          omega
      · rw [parseLine_header_other sv s l m ht hm he]
        obtain ⟨ms, hms, hinv⟩ := idInv_flush sv s ns h
        refine ⟨ms, ?_, hinv⟩
        simpa [errIdsOf_append, errIdsOf, Event.errId] using hms
    | none =>
      cases hc : s.currentError with
      | none =>
        rw [parseLine_orphan sv s l ht hm hc]
        exact ⟨[], rfl, by rw [List.append_nil]; exact h⟩
      | some cur =>
        by_cases hs : isStackContinuation (trimEndStr l) = true
        · rw [parseLine_cont_stack sv s l cur ht hm hc hs]
          exact ⟨[], rfl, by
            rw [List.append_nil]; exact idInv_congr sv ns h rfl rfl⟩
        · rw [parseLine_cont_context sv s l cur ht hm hc
            (Bool.not_eq_true _ ▸ hs)]
          exact ⟨[], rfl, by
            rw [List.append_nil]; exact idInv_congr sv ns h rfl rfl⟩

theorem idInv_applyOp (sv : String) (s : ParserState) (op : Op)
    (ns : List Nat) (h : IdInv sv ns s) :
    ∃ ms : List Nat,
      errIdsOf (applyOp sv s op).2 =
        ms.map (fun n => sv ++ "-err-" ++ Nat.repr n) ∧
      IdInv sv (ns ++ ms) (applyOp sv s op).1 := by
  cases op with
  | line l => exact idInv_parseLine sv s l ns h
  | flush => exact idInv_flush sv s ns h

theorem idInv_runOps (sv : String) (ops : List Op) :
    ∀ (s : ParserState) (ns : List Nat), IdInv sv ns s →
    ∃ ms : List Nat,
      errIdsOf (runOps sv s ops).2 =
        ms.map (fun n => sv ++ "-err-" ++ Nat.repr n) ∧
      IdInv sv (ns ++ ms) (runOps sv s ops).1 := by
  induction ops with
  | nil =>
    intro s ns h
    exact ⟨[], rfl, by rw [List.append_nil]; exact h⟩
  | cons op ops ih =>
    intro s ns h
    obtain ⟨ms1, hms1, hinv1⟩ := idInv_applyOp sv s op ns h
    obtain ⟨ms2, hms2, hinv2⟩ := ih (applyOp sv s op).1 (ns ++ ms1) hinv1
    refine ⟨ms1 ++ ms2, ?_, ?_⟩
    · show errIdsOf ((applyOp sv s op).2 ++ (runOps sv (applyOp sv s op).1 ops).2) = _
      rw [errIdsOf_append, hms1, hms2, List.map_append]
    · rw [← List.append_assoc]
      exact hinv2

/-- Number of open (accumulating) error records in a parser state. -/
def openRecordCount (s : ParserState) : Nat :=
  match s.currentError with
  | some _ => 1
  | none => 0

theorem openRecordCount_le_one (s : ParserState) : openRecordCount s ≤ 1 := by
  unfold openRecordCount
  split <;> omega

/-- C3: for every sequence of operations on a single `LogParser`
instance, (i) the emitted event log is append-only — after any prefix of the
operations the events so far are a prefix of the final events, so an emitted
record is never retracted or mutated; (ii) the ids of the emitted
`ErrorBlock`s are pairwise distinct — an emitted record is never reopened;
(iii) at every intermediate point at most one error record is open. -/
theorem C3_single_open_never_reopened (sv : String) (ops : List Op) :
    (∀ n : Nat, (runOps sv initialParserState (ops.take n)).2 <+:
        (runOps sv initialParserState ops).2) ∧
    List.Pairwise (· ≠ ·) (errIdsOf (runOps sv initialParserState ops).2) ∧
    (∀ n : Nat, openRecordCount (runOps sv initialParserState (ops.take n)).1 ≤ 1) := by
  refine ⟨?_, ?_, ?_⟩
  · intro n
    conv_rhs => rw [← List.take_append_drop n ops,
      runOps_append sv (ops.take n) (ops.drop n) initialParserState]
    exact List.prefix_append _ _
  · have hinit : IdInv sv [] initialParserState := by
      refine ⟨List.chain'_nil, ?_, ?_⟩
      · intro x hx; exact absurd hx (List.not_mem_nil x)
      · intro cur hc; exact absurd hc (by simp [initialParserState])
    obtain ⟨ms, hms, hinv⟩ := idInv_runOps sv ops initialParserState [] hinit
    rw [hms]
    have hchain : List.Chain' (· < ·) ms := by
      have := hinv.1
      simpa using this
    have hpw : List.Pairwise (· < ·) ms := List.chain'_iff_pairwise.mp hchain
    exact hpw.map _ fun a b hab =>
      fun heq => absurd (errId_injective sv heq) (Nat.ne_of_lt hab)
  · intro n
    exact openRecordCount_le_one _

/-- C10: `flush` is idempotent.  After a `flush` on any reachable parser
state the parser has no open record and every accumulation buffer is empty,
and an immediately following second `flush` emits no events and leaves the
state unchanged. -/
theorem C10_flush_idempotent (sv : String) (ops : List Op) :
    ((flushCurrentError sv (runOps sv initialParserState ops).1).1).currentError = none ∧
    ((flushCurrentError sv (runOps sv initialParserState ops).1).1).stackTraceBuffer = [] ∧
    ((flushCurrentError sv (runOps sv initialParserState ops).1).1).rawLinesBuffer = [] ∧
    ((flushCurrentError sv (runOps sv initialParserState ops).1).1).contextLinesBuffer = [] ∧
    flushCurrentError sv (flushCurrentError sv (runOps sv initialParserState ops).1).1 =
      ((flushCurrentError sv (runOps sv initialParserState ops).1).1, []) := by
  have hb : buffersClear (runOps sv initialParserState ops).1 :=
    buffersClear_runOps sv ops initialParserState buffersClear_initial
  have hbf : buffersClear (flushCurrentError sv (runOps sv initialParserState ops).1).1 :=
    buffersClear_flush sv _ hb
  have hnone := flushCurrentError_fst_currentError sv (runOps sv initialParserState ops).1
  obtain ⟨h1, h2, h3⟩ := hbf hnone
  exact ⟨hnone, h1, h2, h3, flushCurrentError_of_none sv _ hnone⟩

/-! ## Blank-message and synthesised-message lemmas -/

theorem all_dropWhile_iff (p : Char → Bool) (l : List Char) :
    (∀ x ∈ l.dropWhile p, p x) ↔ (∀ x ∈ l, p x) := by
  constructor
  · intro h x hx
    rw [← List.takeWhile_append_dropWhile (p := p) (l := l)] at hx
    rcases List.mem_append.mp hx with hx | hx
    · exact List.mem_takeWhile_imp hx
    · exact h x hx
  · intro h x hx
    exact h x (List.dropWhile_subset p hx)

theorem trimStr_eq_empty_iff (s : String) :
    trimStr s = "" ↔ ∀ c ∈ s.data, isWsChar c = true := by
  unfold trimStr
  rw [show ("" : String) = String.mk [] from rfl, String.ext_iff]
  show (List.dropWhile isWsChar (s.data.dropWhile isWsChar).reverse).reverse = [] ↔ _
  rw [List.reverse_eq_nil_iff, List.dropWhile_eq_nil_iff]
  constructor
  · intro h c hc
    by_cases hdrop : c ∈ s.data.dropWhile isWsChar
    · exact h c (List.mem_reverse.mpr hdrop)
    · rw [← List.takeWhile_append_dropWhile (p := isWsChar) (l := s.data)] at hc
      rcases List.mem_append.mp hc with hc | hc
      · exact List.mem_takeWhile_imp hc
      · exact absurd hc hdrop
  · intro h c hc
    exact h c (List.dropWhile_subset isWsChar (List.mem_reverse.mp hc))

theorem trimStr_joinSep_ne_empty (sep x : String) (xs : List String)
    (hx : trimStr x ≠ "") : trimStr (joinSep sep (x :: xs)) ≠ "" := by
  intro hcontra
  apply hx
  rw [trimStr_eq_empty_iff] at hcontra ⊢
  intro c hc
  apply hcontra
  cases xs with
  | nil => simpa [joinSep] using hc
  | cons y ys =>
    simp only [joinSep, String.data_append]
    exact List.mem_append.mpr (Or.inl (List.mem_append.mpr (Or.inl hc)))

theorem joinSep_ne_empty_of_head_trim (sep x : String) (xs : List String)
    (hx : trimStr x ≠ "") : joinSep sep (x :: xs) ≠ "" := by
  intro hcontra
  exact trimStr_joinSep_ne_empty sep x xs hx (by rw [hcontra]; rfl)

theorem isMeaningfulContext_trim_ne (l : String)
    (h : isMeaningfulContext l = true) : trimStr l ≠ "" := by
  unfold isMeaningfulContext at h
  simp only [Bool.and_eq_true, decide_eq_true_eq] at h
  exact h.1

/-- C6: flushing a stream with an open record whose accumulated
(effective) message is non-blank emits exactly one final `ErrorBlock`;
flushing when the open record's primary message is blank and no context
lines were accumulated emits nothing. -/
theorem C6_flush_emission (sv : String) (s : ParserState) (cur : OpenError)
    (h : s.currentError = some cur) :
    (trimStr (effectiveMessage cur.message s.contextLinesBuffer) ≠ "" →
       (flushCurrentError sv s).2 =
         [Event.err (mkFlushBlock sv cur s
            (effectiveMessage cur.message s.contextLinesBuffer))]) ∧
    (trimStr cur.message = "" → s.contextLinesBuffer = [] →
       (flushCurrentError sv s).2 = []) := by
  constructor
  · intro hmsg
    rw [flushCurrentError_of_some sv s cur h, if_pos hmsg]
  · intro hblank hctx
    have heff : effectiveMessage cur.message s.contextLinesBuffer = cur.message := by
      unfold effectiveMessage
      exact if_neg fun hand => hand.2 hctx
    rw [flushCurrentError_of_some sv s cur h, heff,
      if_neg (fun hne => hne hblank)]

/-- A concrete open record with a non-blank message. -/
def sampleOpenBoom : OpenError :=
  { id := "svc-err-1", timestamp := "2024-01-15 10:30:45.123",
    level := "ERROR", logger := "c.e.demo.MyApp", thread := "main",
    message := "Boom" }

/-- A concrete parser state holding `sampleOpenBoom` open. -/
def sampleStateBoom : ParserState :=
  { currentError := some sampleOpenBoom,
    stackTraceBuffer := ["    at com.example.Foo.bar(Foo.java:3)"],
    rawLinesBuffer := ["2024-01-15 10:30:45.123  ERROR 12345 --- [main] c.e.demo.MyApp : Boom",
                       "    at com.example.Foo.bar(Foo.java:3)"],
    contextLinesBuffer := [], errorCounter := 1 }

/-- Witness for C6 at a concrete open record with a non-blank message. -/
theorem C6_witness :
    (flushCurrentError "svc" sampleStateBoom).2 =
      [Event.err (mkFlushBlock "svc" sampleOpenBoom sampleStateBoom
         (effectiveMessage sampleOpenBoom.message
            sampleStateBoom.contextLinesBuffer))] :=
  (C6_flush_emission "svc" sampleStateBoom sampleOpenBoom rfl).1 (by decide)

/-- C7 (amended): during finalisation of an open record with a blank
primary message and a non-empty context buffer, the emitted message is the
meaningful context lines (non-blank after trimming and not consisting solely
of asterisks — the code's actual decoration filter `/^\*+$/`) joined with
`" | "`; the fixed placeholder `"Error (see details)"` is substituted exactly
when no meaningful context line exists. -/
theorem C7_amended (sv : String) (s : ParserState) (cur : OpenError)
    (h : s.currentError = some cur) (hblank : trimStr cur.message = "")
    (hctx : s.contextLinesBuffer ≠ []) :
    (s.contextLinesBuffer.filter isMeaningfulContext ≠ [] →
       (flushCurrentError sv s).2 =
         [Event.err (mkFlushBlock sv cur s
            (joinSep " | " (s.contextLinesBuffer.filter isMeaningfulContext)))]) ∧
    (s.contextLinesBuffer.filter isMeaningfulContext = [] →
       (flushCurrentError sv s).2 =
         [Event.err (mkFlushBlock sv cur s "Error (see details)")]) := by
  constructor
  · intro hfil
    cases hm : s.contextLinesBuffer.filter isMeaningfulContext with
    | nil => exact absurd hm hfil
    | cons m0 rest =>
      have hm0 : isMeaningfulContext m0 = true := by
        have hmem : m0 ∈ s.contextLinesBuffer.filter isMeaningfulContext := by
          rw [hm]; exact List.mem_cons_self m0 rest
        exact (List.mem_filter.mp hmem).2
      have htrim0 : trimStr m0 ≠ "" := isMeaningfulContext_trim_ne m0 hm0
      have heff : effectiveMessage cur.message s.contextLinesBuffer =
          joinSep " | " (s.contextLinesBuffer.filter isMeaningfulContext) := by
        unfold effectiveMessage
        rw [if_pos ⟨hblank, hctx⟩]
        show (if joinSep " | " (s.contextLinesBuffer.filter isMeaningfulContext) = ""
              then "Error (see details)"
              else joinSep " | " (s.contextLinesBuffer.filter isMeaningfulContext)) = _
        rw [hm, if_neg (joinSep_ne_empty_of_head_trim _ m0 rest htrim0)]
      have htr : trimStr (effectiveMessage cur.message s.contextLinesBuffer) ≠ "" := by
        rw [heff, hm]
        exact trimStr_joinSep_ne_empty _ m0 rest htrim0
      rw [flushCurrentError_of_some sv s cur h, if_pos htr, heff, hm]
  · intro hfil
    have heff : effectiveMessage cur.message s.contextLinesBuffer =
        "Error (see details)" := by
      unfold effectiveMessage
      rw [if_pos ⟨hblank, hctx⟩]
      show (if joinSep " | " (s.contextLinesBuffer.filter isMeaningfulContext) = ""
            then "Error (see details)"
            else joinSep " | " (s.contextLinesBuffer.filter isMeaningfulContext)) = _
      rw [hfil]
      simp [joinSep]
    have htr : trimStr (effectiveMessage cur.message s.contextLinesBuffer) ≠ "" := by
      rw [heff]; decide
    rw [flushCurrentError_of_some sv s cur h, if_pos htr, heff]

/-- A concrete open record with a blank message. -/
def sampleOpenBlank : OpenError :=
  { id := "svc-err-1", timestamp := "2024-01-15 10:30:45.123",
    level := "ERROR", logger := "c.e.demo.MyApp", thread := "main",
    message := "" }

/-- A concrete parser state with a blank-message record and two context
lines. -/
def sampleStateCtx : ParserState :=
  { currentError := some sampleOpenBlank,
    stackTraceBuffer := [],
    rawLinesBuffer := ["2024-01-15 10:30:45.123  ERROR 12345 --- [main] c.e.demo.MyApp :",
                       "Failure line one", "Failure line two"],
    contextLinesBuffer := ["Failure line one", "Failure line two"],
    errorCounter := 1 }

/-- Witness for C7 (amended) at a concrete blank-message record with two
meaningful context lines. -/
theorem C7_witness :
    (flushCurrentError "svc" sampleStateCtx).2 =
      [Event.err (mkFlushBlock "svc" sampleOpenBlank sampleStateCtx
         (joinSep " | "
            (sampleStateCtx.contextLinesBuffer.filter isMeaningfulContext)))] :=
  (C7_amended "svc" sampleStateCtx sampleOpenBlank rfl (by decide)
    (by decide)).1 (by decide)

/-! ## Sample input lines (shared by several concrete computations) -/

/-- A structured ERROR header with a non-blank message. -/
def hdrError : String :=
  "2024-01-15 10:30:45.123  ERROR 12345 --- [main] c.e.demo.MyApp : Something went wrong"

/-- A structured WARN header whose message contains "rolled back". -/
def hdrWarnRolledBack : String :=
  "2024-01-15 10:30:45.123  WARN 12345 --- [main] c.e.demo.Tx : Transaction rolled back"

/-- A structured ERROR header with a blank message body. -/
def hdrErrorBlankMsg : String :=
  "2024-01-15 10:30:45.123  ERROR 12345 --- [main] c.e.demo.MyApp :"

/-- A delivered line carrying a literal escaped-newline token (the two
characters backslash and `n`) followed by an embedded frame line. -/
def hdrEscapedToken : String :=
  "2024-01-15 10:30:45.123  ERROR 12345 --- [main] c.e.demo.App : Boom\\n    at com.example.Foo.bar(Foo.java:3)"

/-! ## C7: claim-side reading of "non-decorative" (for the refutation) -/

/-- Stated from the claim's words for C7: a line is "all-punctuation
decoration" when it is non-empty and consists solely of punctuation
characters (neither alphanumeric nor whitespace). -/
def specAllPunctuationDecoration (t : String) : Bool :=
  t ≠ "" && t.data.all fun c => !c.isAlphanum && !isWsChar c

/-- Stated from the claim's words for C7: the context lines that are not
blank and not all-punctuation decoration. -/
def specNonDecorativeLines (ctx : List String) : List String :=
  ctx.filter fun l => trimStr l ≠ "" && !specAllPunctuationDecoration (trimStr l)

/-- C7 (counterexample): an ERROR header with a blank message followed by
the context lines `"-----"` and `"Connection refused"` and a flush.  Exactly
one context line (`"Connection refused"`) is non-decorative in the claim's
sense, so the claim predicts the message `"Connection refused"` (joining a
single line is that line for every separator); the code instead keeps the
all-punctuation banner `"-----"` (its filter only drops all-asterisk lines)
and emits `"----- | Connection refused"`. -/
theorem C7_counterexample :
    ((runOps "svc" initialParserState
        [Op.line hdrErrorBlankMsg, Op.line "-----",
         Op.line "Connection refused", Op.flush]).2.filterMap
       (fun ev => match ev with | .err e => some e.message | .log _ => none)
      = ["----- | Connection refused"]) ∧
    specNonDecorativeLines ["-----", "Connection refused"] = ["Connection refused"] ∧
    ("----- | Connection refused" ≠ "Connection refused") ∧
    ("----- | Connection refused" ≠ "Error (see details)") := by
  refine ⟨by decide, by decide, by decide, by decide⟩

/-! ## C1, C2, C8: header-line processing -/

theorem matchHeader_empty : matchHeader "" = none := by decide

/-- C1 (amended): every line matching the structured-header grammar emits
exactly one `LogLine` event; when its severity is ERROR the line additionally
seeds exactly one newly opened error record (whose raw-line buffer is exactly
that line); when its severity is not ERROR (WARN included — there is no
promotion) the parser is left with no open record, so the line contributes to
no error record of its own. -/
theorem C1_amended (sv : String) (s : ParserState) (l : String) (m : HeaderMatch)
    (h : matchHeader (trimEndStr l) = some m) :
    ((parseLine sv s l).2.countP Event.isLog = 1) ∧
    (m.level = "ERROR" →
       (parseLine sv s l).1.currentError =
         some { id := sv ++ "-err-" ++
                  Nat.repr ((flushCurrentError sv s).1.errorCounter + 1),
                timestamp := m.timestamp, level := "ERROR", logger := m.logger,
                thread := trimStr m.thread, message := m.message } ∧
       (parseLine sv s l).1.rawLinesBuffer = [trimEndStr l]) ∧
    (m.level ≠ "ERROR" → (parseLine sv s l).1.currentError = none) := by
  have ht : trimEndStr l ≠ "" := by
    intro h0
    rw [h0, matchHeader_empty] at h
    exact Option.noConfusion h
  refine ⟨?_, ?_, ?_⟩
  · by_cases he : m.level = "ERROR"
    · rw [parseLine_header_error sv s l m ht h he]
      simp [List.countP_append, flushCurrentError_countP_isLog,
        List.countP_cons, Event.isLog]
    · rw [parseLine_header_other sv s l m ht h he]
      simp [List.countP_append, flushCurrentError_countP_isLog,
        List.countP_cons, Event.isLog]
  · intro he
    rw [parseLine_header_error sv s l m ht h he]
    exact ⟨rfl, rfl⟩
  · intro he
    rw [parseLine_header_other sv s l m ht h he]
    exact flushCurrentError_fst_currentError sv s

/-- Witness for C1 (amended) at the concrete ERROR header `hdrError`. -/
theorem C1_witness :
    (parseLine "svc" initialParserState hdrError).2.countP Event.isLog = 1 ∧
    (parseLine "svc" initialParserState hdrError).1.rawLinesBuffer =
      [trimEndStr hdrError] :=
  have T := C1_amended "svc" initialParserState hdrError
    { timestamp := "2024-01-15 10:30:45.123", level := "ERROR", pid := "12345",
      thread := "main", logger := "c.e.demo.MyApp",
      message := "Something went wrong" } (by decide)
  ⟨T.1, (T.2.1 rfl).2⟩

/-- C1 (counterexample): for a single ERROR header line the code emits a
`LogLine` event *and* contributes the same line to the (eventually emitted)
error record — the claim's "never both" fails.  The run processes the header
and flushes; the event log contains exactly one log event for the line and
exactly one error event whose raw lines contain that same line. -/
theorem C1_counterexample :
    ((runOps "svc" initialParserState [Op.line hdrError, Op.flush]).2.countP
        Event.isLog = 1) ∧
    ((runOps "svc" initialParserState [Op.line hdrError, Op.flush]).2.countP
        (fun ev => match ev with
                   | .err e => decide (hdrError ∈ e.rawLines)
                   | .log _ => false) = 1) := by
  exact ⟨by decide, by decide⟩

/-- C2 (amended): a WARN header — whatever its message, including one
containing "rolled back" — is never promoted: processed from the idle state
it emits exactly one `LogLine` event and leaves the parser state unchanged,
opening no error record. -/
theorem C2_warn_not_promoted (sv : String) (s : ParserState) (l : String)
    (m : HeaderMatch) (h : matchHeader (trimEndStr l) = some m)
    (hw : m.level = "WARN") (hidle : s.currentError = none) :
    parseLine sv s l =
      (s, [Event.log { timestamp := m.timestamp, level := m.level, pid := m.pid,
                       thread := trimStr m.thread, logger := m.logger,
                       message := m.message, raw := trimEndStr l }]) := by
  have ht : trimEndStr l ≠ "" := by
    intro h0
    rw [h0, matchHeader_empty] at h
    exact Option.noConfusion h
  have he : m.level ≠ "ERROR" := by rw [hw]; decide
  rw [parseLine_header_other sv s l m ht h he,
    flushCurrentError_of_none sv s hidle, List.nil_append]

/-- Witness for C2 (amended) at the concrete WARN header containing
"rolled back". -/
theorem C2_witness :
    parseLine "svc" initialParserState hdrWarnRolledBack =
      (initialParserState,
       [Event.log { timestamp := "2024-01-15 10:30:45.123", level := "WARN",
                    pid := "12345", thread := "main", logger := "c.e.demo.Tx",
                    message := "Transaction rolled back",
                    raw := trimEndStr hdrWarnRolledBack }]) :=
  C2_warn_not_promoted "svc" initialParserState hdrWarnRolledBack
    { timestamp := "2024-01-15 10:30:45.123", level := "WARN", pid := "12345",
      thread := "main", logger := "c.e.demo.Tx",
      message := "Transaction rolled back" } (by decide) rfl rfl

/-- C2 (counterexample): the structured WARN header whose message
contains "rolled back" opens no error record and contributes to no error
event — it is handled as plain informational output, contradicting the
claimed WARN promotion. -/
theorem C2_counterexample :
    (parseLine "svc" initialParserState hdrWarnRolledBack).1.currentError = none ∧
    (parseLine "svc" initialParserState hdrWarnRolledBack).2.countP Event.isErr = 0 ∧
    (parseLine "svc" initialParserState hdrWarnRolledBack).2.countP Event.isLog = 1 := by
  exact ⟨by decide, by decide, by decide⟩

/-- C8 (amended): no escaped-newline expansion is performed.  A delivered
line that matches the header grammar is consumed as a single line: the whole
post-colon remainder (any literal `\n` token included) becomes the message of
both the emitted `LogLine` and the seeded error record, and no sub-lines are
pre-classified — the new record's stack-frame buffer is empty. -/
theorem C8_no_escape_expansion (sv : String) (s : ParserState) (l : String)
    (m : HeaderMatch) (h : matchHeader (trimEndStr l) = some m)
    (he : m.level = "ERROR") :
    (parseLine sv s l).1.stackTraceBuffer = [] ∧
    (parseLine sv s l).1.currentError =
      some { id := sv ++ "-err-" ++
               Nat.repr ((flushCurrentError sv s).1.errorCounter + 1),
             timestamp := m.timestamp, level := "ERROR", logger := m.logger,
             thread := trimStr m.thread, message := m.message } ∧
    (parseLine sv s l).2 =
      (flushCurrentError sv s).2 ++
        [Event.log { timestamp := m.timestamp, level := m.level, pid := m.pid,
                     thread := trimStr m.thread, logger := m.logger,
                     message := m.message, raw := trimEndStr l }] := by
  have ht : trimEndStr l ≠ "" := by
    intro h0
    rw [h0, matchHeader_empty] at h
    exact Option.noConfusion h
  rw [parseLine_header_error sv s l m ht h he]
  exact ⟨rfl, rfl, rfl⟩

/-- Witness for C8 (amended) at the concrete token-carrying line. -/
theorem C8_witness :
    (parseLine "svc" initialParserState hdrEscapedToken).1.stackTraceBuffer = [] ∧
    (parseLine "svc" initialParserState hdrEscapedToken).1.currentError =
      some { id := "svc" ++ "-err-" ++
               Nat.repr ((flushCurrentError "svc" initialParserState).1.errorCounter + 1),
             timestamp := "2024-01-15 10:30:45.123", level := "ERROR",
             logger := "c.e.demo.App", thread := "main",
             message := "Boom\\n    at com.example.Foo.bar(Foo.java:3)" } :=
  have T := C8_no_escape_expansion "svc" initialParserState hdrEscapedToken
    { timestamp := "2024-01-15 10:30:45.123", level := "ERROR", pid := "12345",
      thread := "main", logger := "c.e.demo.App",
      message := "Boom\\n    at com.example.Foo.bar(Foo.java:3)" } (by decide) rfl
  ⟨T.1, T.2.1⟩

/-- C8 (counterexample): a delivered line containing the literal
escaped-newline token.  The claim predicts the first sub-line `… : Boom` as
the authoritative header and the remaining sub-line pre-classified as a stack
frame; the code instead matches the whole line, keeps the token inside the
message and classifies nothing — the emitted record's message still contains
the token and its stack trace is empty. -/
theorem C8_counterexample :
    ((runOps "svc" initialParserState [Op.line hdrEscapedToken, Op.flush]).2.filterMap
        (fun ev => match ev with
                   | .err e => some (e.message, e.stackTrace)
                   | .log _ => none)
      = [("Boom\\n    at com.example.Foo.bar(Foo.java:3)", [])]) ∧
    ("Boom\\n    at com.example.Foo.bar(Foo.java:3)" ≠ "Boom") := by
  exact ⟨by decide, by decide⟩

/-! ## C4: first-match-wins classification -/

theorem find?_eq_get_of_first {α : Type} (p : α → Bool) (l : List α) :
    ∀ (i : Nat) (hi : i < l.length), p (l.get ⟨i, hi⟩) = true →
      (∀ (j : Nat) (hj : j < i), p (l.get ⟨j, Nat.lt_trans hj hi⟩) = false) →
      l.find? p = some (l.get ⟨i, hi⟩) := by
  induction l with
  | nil => intro i hi; exact absurd hi (Nat.not_lt_zero i)
  | cons a t ih =>
    intro i hi hp hmin
    cases i with
    | zero =>
      exact List.find?_cons_of_pos _ hp
    | succ j =>
      have hpa : p a = false := hmin 0 (Nat.succ_pos j)
      rw [List.find?_cons_of_neg _ (by simp [hpa])]
      exact ih j (Nat.lt_of_succ_lt_succ hi) hp
        (fun k hk => hmin (k + 1) (Nat.succ_lt_succ hk))

/-- C4: classification is first-match-wins.  For every error block, if
rule `i` of `ERROR_PATTERNS` matches the search text while every earlier rule
does not, `LocalAnalyzer.analyze` returns rule `i`'s verdict — so whenever
two or more rules match, the verdict is that of the rule declared earliest;
and if no rule matches, it returns `none`.  In this embedding `analyze` is a
pure function of the record and the static table, so repetition or
interleaving of calls cannot change the verdict. -/
theorem C4_first_match_wins (now : String) (e : ErrorBlock) :
    (∀ (i : Nat) (hi : i < ERROR_PATTERNS.length),
        (ERROR_PATTERNS.get ⟨i, hi⟩).pattern.testI (fullTextOf e) = true →
        (∀ (j : Nat) (hj : j < i),
           (ERROR_PATTERNS.get ⟨j, Nat.lt_trans hj hi⟩).pattern.testI
             (fullTextOf e) = false) →
        LocalAnalyzer.analyze now e =
          some (mkLocalResult now e (ERROR_PATTERNS.get ⟨i, hi⟩))) ∧
    ((∀ (i : Nat) (hi : i < ERROR_PATTERNS.length),
        (ERROR_PATTERNS.get ⟨i, hi⟩).pattern.testI (fullTextOf e) = false) →
      LocalAnalyzer.analyze now e = none) := by
  constructor
  · intro i hi hp hmin
    unfold LocalAnalyzer.analyze
    rw [find?_eq_get_of_first _ ERROR_PATTERNS i hi hp hmin]
    rfl
  · intro hall
    unfold LocalAnalyzer.analyze
    rw [List.find?_eq_none.mpr]
    · rfl
    · intro x hx
      obtain ⟨⟨k, hk⟩, rfl⟩ := List.mem_iff_get.mp hx
      have := hall k hk
      simpa [List.get_eq_getElem] using this

/-- A concrete error block whose search text matches both the first rule
(`NullPointerException`) and a later rule (`StackOverflowError`). -/
def sampleDoubleMatch : ErrorBlock :=
  { id := "svc-err-1", timestamp := "2024-01-15 10:30:45.123",
    level := "ERROR", logger := "c.e.demo.MyApp", thread := "main",
    message := "java.lang.NullPointerException: boom",
    stackTrace := ["java.lang.StackOverflowError: deep recursion"],
    rawLines := ["java.lang.NullPointerException: boom",
                 "java.lang.StackOverflowError: deep recursion"],
    serviceId := "svc" }

/-- Witness for C4 at a record matching rules 0 and 10: the verdict is that
of rule 0. -/
theorem C4_witness :
    (ERROR_PATTERNS.get ⟨0, by decide⟩).pattern.testI
      (fullTextOf sampleDoubleMatch) = true ∧
    (ERROR_PATTERNS.get ⟨10, by decide⟩).pattern.testI
      (fullTextOf sampleDoubleMatch) = true ∧
    LocalAnalyzer.analyze "2026-01-01T00:00:00.000Z" sampleDoubleMatch =
      some (mkLocalResult "2026-01-01T00:00:00.000Z" sampleDoubleMatch
        (ERROR_PATTERNS.get ⟨0, by decide⟩)) :=
  ⟨by decide, by decide,
   (C4_first_match_wins "2026-01-01T00:00:00.000Z" sampleDoubleMatch).1 0
     (by decide) (by decide) (fun j hj => absurd hj (Nat.not_lt_zero j))⟩

/-! ## C5: raw-line capture -/

/-- Invariant: the raw-line buffer of an open record is exactly the
`trimEnd` image of a contiguous suffix of the lines consumed so far. -/
def RawInv (consumed : List String) (s : ParserState) : Prop :=
  ∀ cur, s.currentError = some cur →
    ∃ seg : List String, seg <:+ consumed ∧ s.rawLinesBuffer = seg.map trimEndStr

theorem rawInv_initial : RawInv [] initialParserState := by
  intro cur hc
  exact absurd hc (by simp [initialParserState])

theorem isSuffix_append_right {seg consumed : List String} (l : String)
    (h : seg <:+ consumed) : seg ++ [l] <:+ consumed ++ [l] := by
  obtain ⟨t, rfl⟩ := h
  exact ⟨t, (List.append_assoc t seg [l]).symm⟩

theorem rawInv_flush (sv : String) (s : ParserState) (consumed : List String)
    (h : RawInv consumed s) :
    (∀ e : ErrorBlock, Event.err e ∈ (flushCurrentError sv s).2 →
       ∃ seg : List String, seg <:+ consumed ∧ e.rawLines = seg.map trimEndStr) ∧
    RawInv consumed (flushCurrentError sv s).1 := by
  constructor
  · intro e he
    cases hc : s.currentError with
    | none =>
      rw [flushCurrentError_of_none sv s hc] at he
      exact absurd he (List.not_mem_nil _)
    | some cur =>
      rw [flushCurrentError_of_some sv s cur hc] at he
      obtain ⟨seg, hseg, hbuf⟩ := h cur hc
      refine ⟨seg, hseg, ?_⟩
      by_cases hmsg : trimStr (effectiveMessage cur.message s.contextLinesBuffer) ≠ ""
      · rw [if_pos hmsg] at he
        simp only [List.mem_singleton, Event.err.injEq] at he
        subst he
        exact hbuf
      · rw [if_neg hmsg] at he
        exact absurd he (List.not_mem_nil _)
  · intro cur hc
    rw [flushCurrentError_fst_currentError sv s] at hc
    exact absurd hc (by simp)

theorem rawInv_parseLine (sv : String) (s : ParserState) (l : String)
    (consumed : List String) (h : RawInv consumed s) :
    (∀ e : ErrorBlock, Event.err e ∈ (parseLine sv s l).2 →
       ∃ seg : List String, seg <:+ consumed ∧ e.rawLines = seg.map trimEndStr) ∧
    RawInv (consumed ++ [l]) (parseLine sv s l).1 := by
  by_cases ht : trimEndStr l = ""
  · cases hc : s.currentError with
    | none =>
      rw [parseLine_empty_none sv s l ht hc]
      refine ⟨fun e he => absurd he (List.not_mem_nil _), ?_⟩
      intro cur hcur
      rw [hc] at hcur
      exact absurd hcur (by simp)
    | some cur =>
      rw [parseLine_empty_some sv s l cur ht hc]
      refine ⟨fun e he => absurd he (List.not_mem_nil _), ?_⟩
      intro c hcur
      obtain ⟨seg, hseg, hbuf⟩ := h cur hc
      refine ⟨seg ++ [l], isSuffix_append_right l hseg, ?_⟩
      simp only [List.map_append, List.map_cons, List.map_nil, hbuf, ht]
  · cases hm : matchHeader (trimEndStr l) with
    | some m =>
      by_cases he : m.level = "ERROR"
      · rw [parseLine_header_error sv s l m ht hm he]
        constructor
        · intro e hmem
          simp only [List.mem_append, List.mem_singleton] at hmem
          rcases hmem with hmem | hmem
          · exact (rawInv_flush sv s consumed h).1 e hmem
          · exact absurd hmem (by simp)
        · intro cur hcur
          refine ⟨[l], ⟨consumed, rfl⟩, by simp⟩
      · rw [parseLine_header_other sv s l m ht hm he]
        constructor
        · intro e hmem
          simp only [List.mem_append, List.mem_singleton] at hmem
          rcases hmem with hmem | hmem
          · exact (rawInv_flush sv s consumed h).1 e hmem
          · exact absurd hmem (by simp)
        · intro cur hcur
          rw [flushCurrentError_fst_currentError sv s] at hcur
          exact absurd hcur (by simp)
    | none =>
      cases hc : s.currentError with
      | none =>
        rw [parseLine_orphan sv s l ht hm hc]
        refine ⟨fun e hmem => absurd hmem (List.not_mem_nil _), ?_⟩
        intro cur hcur
        rw [hc] at hcur
        exact absurd hcur (by simp)
      | some cur =>
        have hstep : ∀ t : ParserState,
            t.rawLinesBuffer = s.rawLinesBuffer ++ [trimEndStr l] →
            t.currentError = s.currentError →
            RawInv (consumed ++ [l]) t := by
          intro t hbuf hce c hcur
          rw [hce, hc] at hcur
          obtain ⟨seg, hseg, hb⟩ := h cur hc
          refine ⟨seg ++ [l], isSuffix_append_right l hseg, ?_⟩
          rw [hbuf, hb, List.map_append, List.map_cons, List.map_nil]
        by_cases hs : isStackContinuation (trimEndStr l) = true
        · rw [parseLine_cont_stack sv s l cur ht hm hc hs]
          exact ⟨fun e hmem => absurd hmem (List.not_mem_nil _),
            hstep _ rfl rfl⟩
        · rw [parseLine_cont_context sv s l cur ht hm hc
            (Bool.not_eq_true _ ▸ hs)]
          exact ⟨fun e hmem => absurd hmem (List.not_mem_nil _),
            hstep _ rfl rfl⟩

theorem rawInv_applyOp (sv : String) (s : ParserState) (op : Op)
    (consumed : List String) (h : RawInv consumed s) :
    (∀ e : ErrorBlock, Event.err e ∈ (applyOp sv s op).2 →
       ∃ seg : List String, seg <:+: consumed ++ linesOf [op] ∧
         e.rawLines = seg.map trimEndStr) ∧
    RawInv (consumed ++ linesOf [op]) (applyOp sv s op).1 := by
  cases op with
  | line l =>
    have := rawInv_parseLine sv s l consumed h
    refine ⟨?_, this.2⟩
    intro e he
    obtain ⟨seg, hseg, hraw⟩ := this.1 e he
    exact ⟨seg,
      hseg.isInfix.trans
        (List.prefix_append consumed (linesOf [Op.line l])).isInfix, hraw⟩
  | flush =>
    have := rawInv_flush sv s consumed h
    refine ⟨?_, ?_⟩
    · intro e he
      obtain ⟨seg, hseg, hraw⟩ := this.1 e he
      exact ⟨seg, by simpa [linesOf] using hseg.isInfix, hraw⟩
    · simpa [linesOf] using this.2

theorem linesOf_cons (op : Op) (ops : List Op) :
    linesOf (op :: ops) = linesOf [op] ++ linesOf ops := by
  cases op <;> simp [linesOf]

theorem rawInv_runOps (sv : String) (ops : List Op) :
    ∀ (s : ParserState) (consumed : List String), RawInv consumed s →
    (∀ e : ErrorBlock, Event.err e ∈ (runOps sv s ops).2 →
       ∃ seg : List String, seg <:+: consumed ++ linesOf ops ∧
         e.rawLines = seg.map trimEndStr) ∧
    RawInv (consumed ++ linesOf ops) (runOps sv s ops).1 := by
  induction ops with
  | nil =>
    intro s consumed h
    refine ⟨fun e he => absurd he (List.not_mem_nil _), ?_⟩
    simpa [linesOf] using h
  | cons op ops ih =>
    intro s consumed h
    have hstep := rawInv_applyOp sv s op consumed h
    have hrest := ih (applyOp sv s op).1 (consumed ++ linesOf [op]) hstep.2
    constructor
    · intro e he
      have hmem : Event.err e ∈ (applyOp sv s op).2 ++
          (runOps sv (applyOp sv s op).1 ops).2 := he
      rcases List.mem_append.mp hmem with hmem | hmem
      · obtain ⟨seg, hseg, hraw⟩ := hstep.1 e hmem
        refine ⟨seg, ?_, hraw⟩
        have h2 : consumed ++ linesOf [op] <+:
            consumed ++ linesOf (op :: ops) := by
          rw [linesOf_cons op ops, ← List.append_assoc]
          exact List.prefix_append _ _
        exact hseg.trans h2.isInfix
      · obtain ⟨seg, hseg, hraw⟩ := hrest.1 e hmem
        refine ⟨seg, ?_, hraw⟩
        rw [linesOf_cons op ops, ← List.append_assoc]
        exact hseg
    · have := hrest.2
      rw [linesOf_cons op ops, ← List.append_assoc]
      exact this

/-- C5 (amended): every emitted error block's raw-line sequence is the
image, under per-line trailing-whitespace removal (`trimEnd`), of a
contiguous segment of the lines fed to the parser; in particular, when no
line of that segment carries trailing whitespace, joining the raw lines with
newlines reproduces the original text block exactly, blank lines included. -/
theorem C5_amended (sv : String) (ops : List Op) (e : ErrorBlock)
    (h : Event.err e ∈ (runOps sv initialParserState ops).2) :
    ∃ seg : List String, seg <:+: linesOf ops ∧
      e.rawLines = seg.map trimEndStr ∧
      ((∀ l ∈ seg, trimEndStr l = l) →
        joinSep "\n" e.rawLines = joinSep "\n" seg) := by
  obtain ⟨seg, hseg, hraw⟩ :=
    (rawInv_runOps sv ops initialParserState [] rawInv_initial).1 e h
  refine ⟨seg, by simpa using hseg, hraw, ?_⟩
  intro hid
  rw [hraw]
  congr 1
  calc seg.map trimEndStr = seg.map id := List.map_congr_left hid
  _ = seg := List.map_id seg

/-- A stack-frame continuation line without trailing whitespace. -/
def frameLineClean : String := "    at com.foo.Bar.baz(Bar.java:7)"

/-- The same frame line as delivered with trailing whitespace. -/
def frameLineTrailing : String := "    at com.foo.Bar.baz(Bar.java:7)   "

/-- The error block emitted for `hdrError` followed by `frameLineClean`. -/
def c5Block : ErrorBlock :=
  { id := "svc-err-1", timestamp := "2024-01-15 10:30:45.123",
    level := "ERROR", logger := "c.e.demo.MyApp", thread := "main",
    message := "Something went wrong",
    stackTrace := [frameLineClean],
    rawLines := [hdrError, frameLineClean],
    serviceId := "svc" }

/-- Witness for C5 (amended) at a concrete two-line error block. -/
theorem C5_witness :
    ∃ seg : List String,
      seg <:+: linesOf [Op.line hdrError, Op.line frameLineClean, Op.flush] ∧
      c5Block.rawLines = seg.map trimEndStr ∧
      ((∀ l ∈ seg, trimEndStr l = l) →
        joinSep "\n" c5Block.rawLines = joinSep "\n" seg) :=
  C5_amended "svc" [Op.line hdrError, Op.line frameLineClean, Op.flush] c5Block
    (by decide)

/-- C5 (counterexample): a frame line delivered with trailing whitespace
is stored trimmed, so concatenating the emitted record's raw lines does not
reproduce the block exactly as received. -/
theorem C5_counterexample :
    ((runOps "svc" initialParserState
        [Op.line hdrError, Op.line frameLineTrailing, Op.flush]).2.filterMap
       (fun ev => match ev with | .err e => some e.rawLines | .log _ => none)
      = [[hdrError, frameLineClean]]) ∧
    joinSep "\n" [hdrError, frameLineClean] ≠
      joinSep "\n" [hdrError, frameLineTrailing] := by
  exact ⟨by decide, by decide⟩

/-! ## C9: the rolling-minute rate ceiling -/

theorem analyzeGuard_proceed (now : Int) (nowIso : String) (e : ErrorBlock)
    (st : ClaudeState) (hconf : st.configured = true)
    (hkeep : st.requestTimestamps.filter (fun x => decide (x > now - 60000)) =
      st.requestTimestamps)
    (hlen : st.requestTimestamps.length < st.maxRequestsPerMinute) :
    analyzeGuard now nowIso e st =
      ({ st with requestTimestamps := st.requestTimestamps ++ [now] },
       GatewayOutcome.proceed) := by
  unfold analyzeGuard canMakeRequest
  rw [hconf]
  simp only [Bool.true_eq_false, if_false, hkeep, decide_eq_true hlen]

theorem analyzeGuard_rateLimited (now : Int) (nowIso : String) (e : ErrorBlock)
    (st : ClaudeState) (hconf : st.configured = true)
    (hlen : ¬ (st.requestTimestamps.filter
        (fun x => decide (x > now - 60000))).length < st.maxRequestsPerMinute) :
    analyzeGuard now nowIso e st =
      ({ st with requestTimestamps :=
           st.requestTimestamps.filter (fun x => decide (x > now - 60000)) },
       GatewayOutcome.rateLimited (rateLimitedResult e nowIso)) := by
  unfold analyzeGuard canMakeRequest
  rw [hconf]
  simp only [Bool.true_eq_false, if_false, decide_eq_false hlen]
  rfl

theorem runGateway_all_proceed (nowIso : String) (e : ErrorBlock)
    (mstr : String) (t : Int) :
    ∀ (ts prev : List Int) (N : Nat),
      prev.length + ts.length ≤ N →
      (∀ x ∈ prev, t - 60000 < x) →
      (∀ x ∈ ts, t - 60000 < x ∧ x ≤ t) →
      runGateway nowIso e
        { configured := true, model := mstr, maxRequestsPerMinute := N,
          requestTimestamps := prev } ts =
        ({ configured := true, model := mstr, maxRequestsPerMinute := N,
           requestTimestamps := prev ++ ts },
         ts.map fun _ => GatewayOutcome.proceed) := by
  intro ts
  induction ts with
  | nil =>
    intro prev N _ _ _
    simp [runGateway]
  | cons t1 ts ih =>
    intro prev N hlen hprev hts
    have ht1 : t - 60000 < t1 ∧ t1 ≤ t := hts t1 (List.mem_cons_self t1 ts)
    have hkeep : prev.filter (fun x => decide (x > t1 - 60000)) = prev := by
      apply List.filter_eq_self.mpr
      intro x hx
      have hx1 : t - 60000 < x := hprev x hx
      have : t1 - 60000 < x := by omega
      exact decide_eq_true this
    have hplen : prev.length < N := by
      simp only [List.length_cons] at hlen
      omega
    have hguard := analyzeGuard_proceed t1 nowIso e
      { configured := true, model := mstr, maxRequestsPerMinute := N,
        requestTimestamps := prev } rfl hkeep hplen
    have hrec := ih (prev ++ [t1]) N
      (by simp only [List.length_append, List.length_cons,
            List.length_singleton, List.length_nil] at hlen ⊢; omega)
      (by intro x hx
          rcases List.mem_append.mp hx with hx | hx
          · exact hprev x hx
          · simp only [List.mem_singleton] at hx; subst hx; exact ht1.1)
      (fun x hx => hts x (List.mem_cons_of_mem t1 hx))
    show ((runGateway nowIso e (analyzeGuard t1 nowIso e _).1 ts).1,
          (analyzeGuard t1 nowIso e _).2 ::
            (runGateway nowIso e (analyzeGuard t1 nowIso e _).1 ts).2) = _
    rw [hguard]
    simp only [hrec, List.append_assoc, List.singleton_append, List.map_cons]

theorem runGateway_append (nowIso : String) (e : ErrorBlock) (st : ClaudeState)
    (l1 l2 : List Int) :
    runGateway nowIso e st (l1 ++ l2) =
      ((runGateway nowIso e (runGateway nowIso e st l1).1 l2).1,
       (runGateway nowIso e st l1).2 ++
         (runGateway nowIso e (runGateway nowIso e st l1).1 l2).2) := by
  induction l1 generalizing st with
  | nil => simp [runGateway]
  | cons t1 l1 ih =>
    simp only [List.cons_append, runGateway, List.append_eq,
      ih (analyzeGuard t1 nowIso e st).1, List.cons_append]

/-- C9: with the gateway configured with a ceiling of `N` calls per
minute and a fresh window, `N` analyze calls within one rolling minute all
enter the network path, and the `(N+1)`-th call inside the same minute
short-circuits to the deterministic rate-limited outcome without entering
the network path. -/
theorem C9_rate_limited (mstr nowIso : String) (e : ErrorBlock) (N : Nat)
    (ts : List Int) (t : Int) (hlen : ts.length = N)
    (hwin : ∀ x ∈ ts, t - 60000 < x ∧ x ≤ t) :
    (runGateway nowIso e
       { configured := true, model := mstr, maxRequestsPerMinute := N,
         requestTimestamps := [] } (ts ++ [t])).2 =
      (ts.map fun _ => GatewayOutcome.proceed) ++
        [GatewayOutcome.rateLimited (rateLimitedResult e nowIso)] := by
  have hrun := runGateway_all_proceed nowIso e mstr t ts [] N
    (by simp [hlen]) (fun x hx => absurd hx (List.not_mem_nil x)) hwin
  rw [runGateway_append, hrun]
  have hkeep : ts.filter (fun x => decide (x > t - 60000)) = ts :=
    List.filter_eq_self.mpr (fun x hx => decide_eq_true (hwin x hx).1)
  have hlim := analyzeGuard_rateLimited t nowIso e
    { configured := true, model := mstr, maxRequestsPerMinute := N,
      requestTimestamps := [] ++ ts } rfl
    (by simp only [List.nil_append, hkeep, hlen]; omega)
  show (ts.map fun _ => GatewayOutcome.proceed) ++
      ((analyzeGuard t nowIso e _).2 ::
        (runGateway nowIso e (analyzeGuard t nowIso e _).1 []).2) = _
  rw [hlim]
  rfl

/-- Witness for C9 with ceiling 2 and three calls inside one minute. -/
theorem C9_witness :
    (runGateway "2026-01-01T00:00:00.000Z" sampleDoubleMatch
       { configured := true, model := "claude-sonnet-4-5-20250929",
         maxRequestsPerMinute := 2, requestTimestamps := [] }
       ([1000, 2000] ++ [3000])).2 =
      (([1000, 2000] : List Int).map fun _ => GatewayOutcome.proceed) ++
        [GatewayOutcome.rateLimited
          (rateLimitedResult sampleDoubleMatch "2026-01-01T00:00:00.000Z")] :=
  C9_rate_limited "claude-sonnet-4-5-20250929" "2026-01-01T00:00:00.000Z"
    sampleDoubleMatch 2 [1000, 2000] 3000 rfl (by decide)
